import Mathlib

/-!
Verification of the horary-astrology judgment/calculation engine
(`backend/calculator.py`, `backend/judgment_engine.py`) against its
natural-language specification.

All numeric quantities (ecliptic longitudes, speeds, orbs) are embedded as
rationals (`ℚ`); confidence values are integers.  Fallible collaborators
(geocoding, ephemeris, timezone lookup) are passed in as explicit
parameters or `Except` values.  Definitions are transcribed from the Python
source; a handful of helpers that live in modules not present in the source
tree (`models.py`, `_horary_math.py`) are modelled from the specification
and are marked as such in their doc comments.
-/

namespace Horary

/-! ## Basic numeric helpers -/

/-- Python's `x % 360.0` on rationals: the representative of `x` modulo 360
lying in `[0, 360)` (Python's `%` on floats returns a value with the sign of
the divisor). -/
def qmod360 (x : ℚ) : ℚ := x - 360 * ⌊x / 360⌋

/-- Python's `x % 30.0`: representative of `x` modulo 30 in `[0, 30)`. -/
def qmod30 (x : ℚ) : ℚ := x - 30 * ⌊x / 30⌋

/-! ## Data model (`models.py` is not in the source tree; the enumerations
below are modelled from the specification §3 and from the tables that do
appear in `calculator.py`). -/

/-- The seven traditional planets (spec §3, `models.Planet`). -/
inductive Planet where
  | sun | moon | mercury | venus | mars | jupiter | saturn
deriving DecidableEq, Repr

/-- The twelve zodiac signs (spec §3, `models.Sign`). -/
inductive Sign where
  | aries | taurus | gemini | cancer | leo | virgo
  | libra | scorpio | sagittarius | capricorn | aquarius | pisces
deriving DecidableEq, Repr

/-- Modelled from the spec: `models.Sign.start_degree` — each sign owns a
30° span, Aries starting at 0° (spec §3: "each owning a 30° span",
"a start degree (multiple of 30)"). -/
def Sign.start_degree : Sign → ℚ
  | .aries => 0 | .taurus => 30 | .gemini => 60 | .cancer => 90
  | .leo => 120 | .virgo => 150 | .libra => 180 | .scorpio => 210
  | .sagittarius => 240 | .capricorn => 270 | .aquarius => 300 | .pisces => 330

/-- Modelled from the spec: `models.Sign.ruler` — the traditional ruling
planet of each sign (spec §3/§4.1; consistent with the detriment table in
`calculator.py`, detriment being the sign opposite rulership). -/
def Sign.ruler : Sign → Planet
  | .aries => .mars | .taurus => .venus | .gemini => .mercury | .cancer => .moon
  | .leo => .sun | .virgo => .mercury | .libra => .venus | .scorpio => .mars
  | .sagittarius => .jupiter | .capricorn => .saturn | .aquarius => .saturn
  | .pisces => .jupiter

/-- The five traditional aspect types (spec §3, `models.Aspect`). -/
inductive Aspect where
  | conjunction | sextile | square | trine | opposition
deriving DecidableEq, Repr

/-- Modelled from the spec: `models.Aspect.degrees` (spec §3: conjunction 0°,
sextile 60°, square 90°, trine 120°, opposition 180°). -/
def Aspect.degrees : Aspect → ℚ
  | .conjunction => 0 | .sextile => 60 | .square => 90
  | .trine => 120 | .opposition => 180

/-- Enumeration order of `models.Aspect`, as iterated by `for aspect_type in
Aspect` in the Python source. -/
def aspectList : List Aspect :=
  [.conjunction, .sextile, .square, .trine, .opposition]

/-- Solar condition classification (spec §3, `models.SolarCondition`). -/
inductive SolarCondition where
  | cazimi | combustion | under_beams | free
deriving DecidableEq, Repr

/-- `models.PlanetPosition` (spec §3): the per-planet chart data read by the
judgment engine. -/
structure PlanetPosition where
  planet : Planet
  longitude : ℚ
  latitude : ℚ
  house : Nat
  sign : Sign
  dignity_score : Int
  retrograde : Bool
  speed : ℚ
deriving DecidableEq, Repr

/-- `models.SolarAnalysis` (spec §3). -/
structure SolarAnalysis where
  planet : Planet
  distance_from_sun : ℚ
  condition : SolarCondition
  exact_cazimi : Bool := false
  traditional_exception : Bool := false
deriving DecidableEq, Repr

/-- `models.AspectInfo` (spec §3): the fields consumed by the judgment
engine (`exact_time` is narrative and omitted). -/
structure AspectInfo where
  planet1 : Planet
  planet2 : Planet
  aspect : Aspect
  orb : ℚ
  applying : Bool
  degrees_to_exact : ℚ
deriving DecidableEq, Repr

/-- `models.LunarAspect` (spec §3): the fields consumed by the judgment
engine. -/
structure LunarAspect where
  planet : Planet
  aspect : Aspect
  orb : ℚ
  degrees_difference : ℚ
  perfection_eta_days : ℚ
  applying : Bool
deriving DecidableEq, Repr

/-- Traditional exaltations table (`calculator.py`,
`EnhancedTraditionalAstrologicalCalculator.exaltations`). -/
def exaltations : Planet → Sign
  | .sun => .aries | .moon => .taurus | .mercury => .virgo | .venus => .pisces
  | .mars => .capricorn | .jupiter => .cancer | .saturn => .libra

/-- Planets with traditional exceptions to combustion (`calculator.py`,
`combustion_resistant`: Mercury and Venus). -/
def combustion_resistant (p : Planet) : Bool :=
  p = .mercury || p = .venus

/-! ## Solar condition analysis (`calculator.py`) -/

/-- Modelled from the spec: `_horary_math.calculate_elongation` — the
angular separation between two ecliptic longitudes, reduced to the shorter
arc in `[0, 180]` (spec §4.3: "Elongation = angular separation between a
planet and the Sun (≤180°)"). -/
def calculate_elongation (lon1 lon2 : ℚ) : ℚ :=
  let d := qmod360 (lon1 - lon2)
  if d > 180 then 360 - d else d

/-- Orb-related configuration (`cfg().orbs`): the fields consumed by the
solar-condition analyzer and the void-of-course by-orb method. -/
structure OrbsConfig where
  cazimi_orb_arcmin : ℚ
  combustion_orb : ℚ
  under_beams_orb : ℚ
  void_orb_deg : ℚ
deriving Repr

/-- `calculator.EnhancedTraditionalAstrologicalCalculator._check_enhanced_combustion_exception`:
the traditional visibility exception for Mercury and Venus.  The Sun's
altitude at civil twilight comes from an ephemeris call and is passed in
as `sun_altitude`.  (The orientality flag computed by the source is unused
by its conditions and is omitted.) -/
def _check_enhanced_combustion_exception (planet : Planet)
    (planet_pos sun_pos : PlanetPosition) (sun_altitude : ℚ) : Bool :=
  let elongation := calculate_elongation planet_pos.longitude sun_pos.longitude
  if elongation < 10 then false
  else if planet = .mercury then
    if elongation ≥ 10 && (planet_pos.sign = Sign.gemini || planet_pos.sign = Sign.virgo) then true
    else if elongation ≥ 18 then true
    else false
  else if planet = .venus then
    if elongation ≥ 10 then
      if sun_altitude ≤ -8 then true
      else if elongation ≥ 40 then true
      else false
    else false
  else false

/-- `calculator.EnhancedTraditionalAstrologicalCalculator._analyze_enhanced_solar_condition`:
first-match hierarchy cazimi / combustion / under-beams / free, with the
traditional exception downgrading combustion and under-beams to free. -/
def _analyze_enhanced_solar_condition (orbs : OrbsConfig) (planet : Planet)
    (planet_pos sun_pos : PlanetPosition) (sun_altitude : ℚ) : SolarAnalysis :=
  if planet = .sun then
    { planet := planet, distance_from_sun := 0, condition := .free,
      exact_cazimi := false }
  else
    let elongation := calculate_elongation planet_pos.longitude sun_pos.longitude
    let cazimi_orb := orbs.cazimi_orb_arcmin / 60
    let traditional_exception :=
      if combustion_resistant planet then
        _check_enhanced_combustion_exception planet planet_pos sun_pos sun_altitude
      else false
    if elongation ≤ cazimi_orb then
      { planet := planet, distance_from_sun := elongation, condition := .cazimi,
        exact_cazimi := elongation ≤ 3/60, traditional_exception := false }
    else if elongation ≤ orbs.combustion_orb then
      if traditional_exception then
        { planet := planet, distance_from_sun := elongation, condition := .free,
          traditional_exception := true }
      else
        { planet := planet, distance_from_sun := elongation, condition := .combustion,
          traditional_exception := false }
    else if elongation ≤ orbs.under_beams_orb then
      if traditional_exception then
        { planet := planet, distance_from_sun := elongation, condition := .free,
          traditional_exception := true }
      else
        { planet := planet, distance_from_sun := elongation, condition := .under_beams,
          traditional_exception := false }
    else
      { planet := planet, distance_from_sun := elongation, condition := .free,
        traditional_exception := false }

/-! ## Configuration model (`cfg()`): the fields read by the judgment
engine, treated as parameters (spec §4.1: "All magnitudes come from external
configuration — the function must treat them as parameters, not
constants"). -/

/-- `cfg().confidence.solar`. -/
structure SolarConfidenceConfig where
  cazimi_bonus : Int
  combustion_penalty : Int
deriving Repr

/-- `cfg().confidence.perfection`. -/
structure PerfectionConfidenceConfig where
  direct_with_mutual_rulership : Int
  direct_with_mutual_exaltation : Int
  direct_basic : Int
  translation_of_light : Int
  collection_of_light : Int
  reception_only : Int
deriving Repr

/-- `cfg().confidence.denial`. -/
structure DenialConfidenceConfig where
  prohibition : Int
  frustration_retrograde : Int
deriving Repr

/-- `cfg().confidence.lunar_confidence_caps`. -/
structure LunarCapsConfig where
  favorable : Int
  unfavorable : Int
  neutral : Int
deriving Repr

/-- `cfg().confidence.reception`. -/
structure ReceptionConfidenceConfig where
  mutual_exaltation_bonus : ℚ
deriving Repr

/-- `cfg().confidence`. -/
structure ConfidenceConfig where
  base_confidence : Int
  solar : SolarConfidenceConfig
  perfection : PerfectionConfidenceConfig
  denial : DenialConfidenceConfig
  lunar_confidence_caps : LunarCapsConfig
  reception : ReceptionConfidenceConfig
deriving Repr

/-- `cfg().radicality.via_combusta`. -/
structure ViaCombustaConfig where
  libra_start : ℚ
  scorpio_full : Bool
  capricorn_start : ℚ
deriving Repr

/-- `cfg().radicality`. -/
structure RadicalityConfig where
  asc_too_early : ℚ
  asc_too_late : ℚ
  saturn_7th_enabled : Bool
  via_combusta_enabled : Bool
  via_combusta : ViaCombustaConfig
deriving Repr

/-- `cfg().moon.void_rule`: a string in the source; the `unknown_rule`
constructor stands for any string other than the three recognized ones
(the source logs a warning and falls back to `by_sign`). -/
inductive VoidRule where
  | by_sign | by_orb | lilly | unknown_rule
deriving DecidableEq, Repr

/-- `cfg().moon.void_exceptions`. -/
structure VoidExceptionsConfig where
  cancer : Bool
  sagittarius : Bool
  taurus : Bool
deriving Repr

/-- `cfg().moon.phase_bonus`. -/
structure MoonPhaseBonusConfig where
  new_moon : Int
  waxing_crescent : Int
  first_quarter : Int
  waxing_gibbous : Int
  full_moon : Int
  waning_gibbous : Int
  last_quarter : Int
  waning_crescent : Int
deriving Repr

/-- `cfg().moon.speed_bonus`. -/
structure MoonSpeedBonusConfig where
  very_slow : Int
  slow : Int
  average : Int
  fast : Int
  very_fast : Int
deriving Repr

/-- `cfg().moon.angularity_bonus`. -/
structure MoonAngularityBonusConfig where
  angular : Int
  succedent : Int
  cadent : Int
deriving Repr

/-- `cfg().moon.translation`. -/
structure TranslationConfig where
  require_speed_advantage : Bool
  require_proper_sequence : Bool
deriving Repr

/-- `cfg().moon.collection`. -/
structure CollectionConfig where
  require_collector_dignity : Bool
  minimum_dignity_score : Int
deriving Repr

/-- `cfg().moon`. -/
structure MoonConfig where
  void_rule : VoidRule
  void_exceptions : VoidExceptionsConfig
  phase_bonus : MoonPhaseBonusConfig
  speed_bonus : MoonSpeedBonusConfig
  angularity_bonus : MoonAngularityBonusConfig
  translation : TranslationConfig
  collection : CollectionConfig
deriving Repr

/-- `cfg().retrograde`. -/
structure RetrogradeConfig where
  automatic_denial : Bool
deriving Repr

/-- `cfg().timing`: the fields consumed by the judgment engine and the
applying-aspect check. -/
structure TimingConfig where
  stationary_speed_threshold : ℚ
  timing_precision_days : ℚ
deriving Repr

/-- The configuration snapshot `cfg()` as read by the judgment engine. -/
structure HoraryConfig where
  orbs : OrbsConfig
  timing : TimingConfig
  radicality : RadicalityConfig
  confidence : ConfidenceConfig
  moon : MoonConfig
  retrograde : RetrogradeConfig
deriving Repr

/-! ## Chart aggregate -/

/-- Iteration order of `chart.planets` (a Python dict inserted in the order
of `calculator.planets_swe`: Sun, Moon, Mercury, Venus, Mars, Jupiter,
Saturn). -/
def planetList : List Planet :=
  [.sun, .moon, .mercury, .venus, .mars, .jupiter, .saturn]

/-- `models.HoraryChart` (spec §3): the immutable chart snapshot read by the
judgment engine.  `planets` and `solar_analyses` are total maps (the
calculator always fills all seven); `house_rulers` mirrors the Python dict's
`.get`, returning `none` off-domain. -/
structure HoraryChart where
  planets : Planet → PlanetPosition
  aspects : List AspectInfo
  houses : List ℚ
  house_rulers : Nat → Option Planet
  ascendant : ℚ
  midheaven : ℚ
  solar_analyses : Planet → SolarAnalysis
  julian_day : ℚ
  moon_last_aspect : Option LunarAspect
  moon_next_aspect : Option LunarAspect

/-! ## Small Python-semantics helpers -/

/-- Python truthiness of an optional float, as used in tests like
`if querent_days_to_sign and ...`: `None` and `0.0` are falsy. -/
def pyTruthy : Option ℚ → Bool
  | none => false
  | some q => q ≠ 0

/-- Python `int()` applied to a float: truncation toward zero. -/
def pyInt (q : ℚ) : Int := if q < 0 then -⌊-q⌋ else ⌊q⌋

/-- Modelled from the spec: `_horary_math.days_to_sign_exit` — days until a
body, projected directionally from its signed speed, leaves its current
zodiac sign (spec §4.2: "projected to exit its current zodiac sign —
computed directionally from its signed speed"); `none` for a stationary
body (callers guard with Python truthiness, so `none` and `0.0` behave
alike). -/
def days_to_sign_exit (longitude speed : ℚ) : Option ℚ :=
  if speed > 0 then some ((30 - qmod30 longitude) / speed)
  else if speed < 0 then some (qmod30 longitude / (-speed))
  else none

/-! ## Judgment-engine building blocks (`judgment_engine.py`).
Narrative fields of the Python result dicts (`reason`, `summary`, `timing`,
formatted strings) carry no judgment semantics and are omitted from the
embedded records; every field the engine branches on is kept. -/

/-- Reception classification returned by
`_check_enhanced_mutual_reception` (a string in the source). -/
inductive Reception where
  | mutual_rulership | mutual_exaltation | mixed_reception | no_reception
deriving DecidableEq, Repr

/-- Perfection route (`perfection["type"]` in the source). -/
inductive PerfectionType where
  | direct | translation | collection | reception
deriving DecidableEq, Repr

/-- The semantic content of the dict returned by
`_check_enhanced_perfection` when `perfects` is true (`none` models
`{"perfects": False}`). -/
structure PerfectionData where
  ptype : PerfectionType
  favorable : Bool
  confidence : Int
  reception : Reception
deriving DecidableEq, Repr

/-- The semantic content of the void-of-course result dicts
(`void`, `exception`, `degrees_left_in_sign`; `reason` is narrative). -/
structure VoidResult where
  void : Bool
  exception : Bool
  degrees_left_in_sign : Option ℚ
deriving DecidableEq, Repr

/-- The semantic content of the dict returned by
`_check_enhanced_moon_testimony`. -/
structure MoonTestimonyResult where
  favorable : Bool
  unfavorable : Bool
  void_of_course : Bool
deriving DecidableEq, Repr

/-- The semantic content of the dict returned by
`_apply_enhanced_judgment`: terminal verdict string and integer
confidence. -/
structure JudgmentOutcome where
  result : String
  confidence : Int
deriving DecidableEq, Repr

/-- `_check_enhanced_radicality`: returns the `valid` flag of the result
dict (reasons are narrative). -/
def _check_enhanced_radicality (config : HoraryConfig) (chart : HoraryChart)
    (ignore_saturn_7th : Bool := false) : Bool :=
  let asc_degree := qmod30 chart.ascendant
  if asc_degree < config.radicality.asc_too_early then false
  else if asc_degree > config.radicality.asc_too_late then false
  else if config.radicality.saturn_7th_enabled && !ignore_saturn_7th
      && (chart.planets .saturn).house = 7 then false
  else if config.radicality.via_combusta_enabled then
    let moon_pos := chart.planets .moon
    let moon_degree_in_sign := qmod30 moon_pos.longitude
    let vc := config.radicality.via_combusta
    if (moon_pos.sign = Sign.libra && moon_degree_in_sign > vc.libra_start)
        || (moon_pos.sign = Sign.scorpio && vc.scorpio_full)
        || (moon_pos.sign = Sign.capricorn && moon_degree_in_sign > vc.capricorn_start)
    then false else true
  else true

/-- `_identify_significators`: `some (querent, quesited)` when valid,
`none` for the two failure modes (missing ruler / same ruler). -/
def _identify_significators (chart : HoraryChart) (quesited_house : Nat) :
    Option (Planet × Planet) :=
  match chart.house_rulers 1, chart.house_rulers quesited_house with
  | some querent_ruler, some quesited_ruler =>
      if querent_ruler = quesited_ruler then none
      else some (querent_ruler, quesited_ruler)
  | _, _ => none

/-- `_find_applying_aspect`: first aspect in `chart.aspects` joining the two
planets (in either order) with `applying` set.  The source projects the
record to `{aspect, orb, degrees_to_exact}`; the embedding returns the whole
`AspectInfo`, whose extra fields the callers ignore. -/
def _find_applying_aspect (chart : HoraryChart) (planet1 planet2 : Planet) :
    Option AspectInfo :=
  chart.aspects.find? (fun a =>
    ((a.planet1 = planet1 && a.planet2 = planet2)
      || (a.planet1 = planet2 && a.planet2 = planet1)) && a.applying)

/-- `_enhanced_perfects_in_sign`: the aspect perfects before either body
leaves its sign (the `chart` argument of the source is unused). -/
def _enhanced_perfects_in_sign (pos1 pos2 : PlanetPosition)
    (aspect_info : AspectInfo) : Bool :=
  let days_to_exit_1 := days_to_sign_exit pos1.longitude pos1.speed
  let days_to_exit_2 := days_to_sign_exit pos2.longitude pos2.speed
  let relative_speed := |pos1.speed - pos2.speed|
  if relative_speed = 0 then false
  else
    let days_to_perfect := aspect_info.degrees_to_exact / relative_speed
    if pyTruthy days_to_exit_1 && days_to_perfect > (days_to_exit_1.getD 0) then false
    else if pyTruthy days_to_exit_2 && days_to_perfect > (days_to_exit_2.getD 0) then false
    else true

/-- `_check_enhanced_mutual_reception` (all seven planets are present in the
exaltations table, so the Python `planet in calc.exaltations` guards are
always true). -/
def _check_enhanced_mutual_reception (chart : HoraryChart)
    (planet1 planet2 : Planet) : Reception :=
  let pos1 := chart.planets planet1
  let pos2 := chart.planets planet2
  if pos1.sign.ruler = planet2 && pos2.sign.ruler = planet1 then
    .mutual_rulership
  else if exaltations planet1 = pos2.sign && exaltations planet2 = pos1.sign then
    .mutual_exaltation
  else if (pos1.sign.ruler = planet2 && exaltations planet2 = pos1.sign)
      || (pos2.sign.ruler = planet1 && exaltations planet1 = pos2.sign) then
    .mixed_reception
  else .no_reception

/-- `_is_aspect_favorable`: conjunction/sextile/trine are favorable; any
reception forces favorable. -/
def _is_aspect_favorable (aspect : Aspect) (reception : Reception) : Bool :=
  let base_favorable :=
    aspect = Aspect.conjunction || aspect = Aspect.sextile || aspect = Aspect.trine
  if reception = Reception.mutual_rulership || reception = Reception.mutual_exaltation
      || reception = Reception.mixed_reception then true
  else base_favorable

/-- The external separation-order check
(`_horary_math.check_aspect_separation_order`, not in the source tree):
passed in as an opaque collaborator returning the `is_separating` flag,
with the exact argument tuple the source supplies. -/
def SepOrderFn : Type := ℚ → ℚ → ℚ → ℚ → ℚ → ℚ → Bool

/-- Loop body of `_check_enhanced_translation_of_light` over the planet
dict. -/
def translationLoop (config : HoraryConfig) (sepOrder : SepOrderFn)
    (chart : HoraryChart) (querent quesited : Planet) :
    List Planet → Option (Planet × Bool)
  | [] => none
  | planet :: rest =>
    if planet = querent || planet = quesited then
      translationLoop config sepOrder chart querent quesited rest
    else
      let pos := chart.planets planet
      match _find_applying_aspect chart planet querent,
            _find_applying_aspect chart planet quesited with
      | some aspect_to_querent, some aspect_to_quesited =>
        if config.moon.translation.require_proper_sequence then
          let querent_sep := sepOrder (chart.planets querent).longitude
            (chart.planets querent).speed pos.longitude pos.speed
            aspect_to_querent.aspect.degrees chart.julian_day
          let quesited_sep := sepOrder (chart.planets quesited).longitude
            (chart.planets quesited).speed pos.longitude pos.speed
            aspect_to_quesited.aspect.degrees chart.julian_day
          if querent_sep
              && aspect_to_quesited.degrees_to_exact < aspect_to_querent.degrees_to_exact then
            some (planet, true)
          else if quesited_sep
              && aspect_to_querent.degrees_to_exact < aspect_to_quesited.degrees_to_exact then
            some (planet, true)
          else translationLoop config sepOrder chart querent quesited rest
        else some (planet, true)
      | _, _ => translationLoop config sepOrder chart querent quesited rest

/-- `_check_enhanced_translation_of_light`: `some (translator, favorable)`.
When `require_speed_advantage` is set the source's only loop is skipped
entirely and no translation is ever found. -/
def _check_enhanced_translation_of_light (config : HoraryConfig)
    (sepOrder : SepOrderFn) (chart : HoraryChart) (querent quesited : Planet) :
    Option (Planet × Bool) :=
  if config.moon.translation.require_speed_advantage then none
  else translationLoop config sepOrder chart querent quesited planetList

/-- Loop body of `_check_enhanced_collection_of_light`. -/
def collectionLoop (config : HoraryConfig) (chart : HoraryChart)
    (querent quesited : Planet) : List Planet → Option Planet
  | [] => none
  | planet :: rest =>
    if planet = querent || planet = quesited then
      collectionLoop config chart querent quesited rest
    else
      let pos := chart.planets planet
      match _find_applying_aspect chart querent planet,
            _find_applying_aspect chart quesited planet with
      | some aspects_from_querent, some aspects_from_quesited =>
        if config.moon.collection.require_collector_dignity
            && pos.dignity_score < config.moon.collection.minimum_dignity_score then
          collectionLoop config chart querent quesited rest
        else
          let querent_pos := chart.planets querent
          let quesited_pos := chart.planets quesited
          let querent_days_to_sign :=
            days_to_sign_exit querent_pos.longitude querent_pos.speed
          let quesited_days_to_sign :=
            days_to_sign_exit quesited_pos.longitude quesited_pos.speed
          let max_collection_days := max
            (if |querent_pos.speed - pos.speed| > 0 then
              aspects_from_querent.degrees_to_exact / |querent_pos.speed - pos.speed|
             else 0)
            (if |quesited_pos.speed - pos.speed| > 0 then
              aspects_from_quesited.degrees_to_exact / |quesited_pos.speed - pos.speed|
             else 0)
          let valid_collection :=
            !(pyTruthy querent_days_to_sign
                && max_collection_days > querent_days_to_sign.getD 0)
            && !(pyTruthy quesited_days_to_sign
                && max_collection_days > quesited_days_to_sign.getD 0)
          if valid_collection then some planet
          else collectionLoop config chart querent quesited rest
      | _, _ => collectionLoop config chart querent quesited rest

/-- `_check_enhanced_collection_of_light`: `some collector` when found. -/
def _check_enhanced_collection_of_light (config : HoraryConfig)
    (chart : HoraryChart) (querent quesited : Planet) : Option Planet :=
  collectionLoop config chart querent quesited planetList

/-- `_check_enhanced_perfection`: the four perfection routes tried in
priority order. -/
def _check_enhanced_perfection (config : HoraryConfig) (sepOrder : SepOrderFn)
    (chart : HoraryChart) (querent quesited : Planet)
    (exaltation_confidence_boost : ℚ) : Option PerfectionData :=
  let afterDirect : Option PerfectionData :=
    match _check_enhanced_translation_of_light config sepOrder chart querent quesited with
    | some (_translator, favorable) =>
      some { ptype := .translation, favorable := favorable,
             confidence := config.confidence.perfection.translation_of_light,
             reception := .no_reception }
    | none =>
      match _check_enhanced_collection_of_light config chart querent quesited with
      | some _collector =>
        some { ptype := .collection, favorable := true,
               confidence := config.confidence.perfection.collection_of_light,
               reception := .no_reception }
      | none =>
        match _check_enhanced_mutual_reception chart querent quesited with
        | .mutual_rulership =>
          some { ptype := .reception, favorable := true,
                 confidence := config.confidence.perfection.reception_only,
                 reception := .mutual_rulership }
        | .mutual_exaltation =>
          some { ptype := .reception, favorable := true,
                 confidence := pyInt (min 100
                   ((config.confidence.perfection.reception_only : ℚ)
                     + exaltation_confidence_boost)),
                 reception := .mutual_exaltation }
        | _ => none
  match _find_applying_aspect chart querent quesited with
  | some direct_aspect =>
    if _enhanced_perfects_in_sign (chart.planets querent) (chart.planets quesited)
        direct_aspect then
      match _check_enhanced_mutual_reception chart querent quesited with
      | .mutual_rulership =>
        some { ptype := .direct, favorable := true,
               confidence := config.confidence.perfection.direct_with_mutual_rulership,
               reception := .mutual_rulership }
      | .mutual_exaltation =>
        some { ptype := .direct, favorable := true,
               confidence := pyInt (min 100
                 ((config.confidence.perfection.direct_with_mutual_exaltation : ℚ)
                   + exaltation_confidence_boost)),
               reception := .mutual_exaltation }
      | reception =>
        some { ptype := .direct,
               favorable := _is_aspect_favorable direct_aspect.aspect reception,
               confidence := config.confidence.perfection.direct_basic,
               reception := reception }
    else afterDirect
  | none => afterDirect

/-- Loop body of the prohibition scan in
`_check_enhanced_denial_conditions`. -/
def prohibitionLoop (config : HoraryConfig) (chart : HoraryChart)
    (querent quesited : Planet) : List AspectInfo → Option Int
  | [] => none
  | aspect :: rest =>
    if (aspect.planet1 = Planet.saturn || aspect.planet2 = Planet.saturn)
        && aspect.applying then
      let other_planet :=
        if aspect.planet1 = Planet.saturn then aspect.planet2 else aspect.planet1
      if other_planet = querent || other_planet = quesited then
        match _find_applying_aspect chart querent quesited with
        | some sig_aspect =>
          if aspect.degrees_to_exact < sig_aspect.degrees_to_exact then
            some config.confidence.denial.prohibition
          else prohibitionLoop config chart querent quesited rest
        | none => prohibitionLoop config chart querent quesited rest
      else prohibitionLoop config chart querent quesited rest
    else prohibitionLoop config chart querent quesited rest

/-- `_check_enhanced_denial_conditions`: `some confidence` when denied. -/
def _check_enhanced_denial_conditions (config : HoraryConfig)
    (chart : HoraryChart) (querent quesited : Planet) : Option Int :=
  match prohibitionLoop config chart querent quesited chart.aspects with
  | some c => some c
  | none =>
    let querent_pos := chart.planets querent
    let quesited_pos := chart.planets quesited
    if config.retrograde.automatic_denial then
      if querent_pos.retrograde || quesited_pos.retrograde then
        some config.confidence.denial.frustration_retrograde
      else none
    else none

/-- The elongation computed by the first lines of `_moon_phase_bonus`:
absolute Moon–Sun longitude difference, folded to the shorter arc. -/
def moonPhaseElongation (chart : HoraryChart) : ℚ :=
  let moon_pos := chart.planets .moon
  let sun_pos := chart.planets .sun
  let e0 := |moon_pos.longitude - sun_pos.longitude|
  if e0 > 180 then 360 - e0 else e0

/-- `_moon_phase_bonus`: Moon–Sun elongation folded to the shorter arc,
then bucketed into the eight configured phase bonuses. -/
def _moon_phase_bonus (config : HoraryConfig) (chart : HoraryChart) : Int :=
  let elongation := moonPhaseElongation chart
  let pb := config.moon.phase_bonus
  if 0 ≤ elongation && elongation < 30 then pb.new_moon
  else if 30 ≤ elongation && elongation < 60 then pb.waxing_crescent
  else if 60 ≤ elongation && elongation < 120 then pb.first_quarter
  else if 120 ≤ elongation && elongation < 150 then pb.waxing_gibbous
  else if 150 ≤ elongation && elongation < 210 then pb.full_moon
  else if 210 ≤ elongation && elongation < 240 then pb.waning_gibbous
  else if 240 ≤ elongation && elongation < 300 then pb.last_quarter
  else pb.waning_crescent

/-- `_moon_speed_bonus`. -/
def _moon_speed_bonus (config : HoraryConfig) (chart : HoraryChart) : Int :=
  let moon_speed := |(chart.planets .moon).speed|
  let sb := config.moon.speed_bonus
  if moon_speed < 11 then sb.very_slow
  else if moon_speed < 12 then sb.slow
  else if moon_speed < 14 then sb.average
  else if moon_speed < 15 then sb.fast
  else sb.very_fast

/-- `_moon_angularity_bonus`. -/
def _moon_angularity_bonus (config : HoraryConfig) (chart : HoraryChart) : Int :=
  let moon_house := (chart.planets .moon).house
  let ab := config.moon.angularity_bonus
  if moon_house = 1 || moon_house = 4 || moon_house = 7 || moon_house = 10 then ab.angular
  else if moon_house = 2 || moon_house = 5 || moon_house = 8 || moon_house = 11 then ab.succedent
  else ab.cadent

/-- `_calculate_aspect_positions`: the aspect's target longitudes falling
inside the Moon's current sign. -/
def _calculate_aspect_positions (planet_longitude : ℚ) (aspect : Aspect)
    (moon_sign : Sign) : List ℚ :=
  let aspect_positions :=
    [qmod360 (planet_longitude + aspect.degrees),
     qmod360 (planet_longitude - aspect.degrees)]
  let sign_start := moon_sign.start_degree
  let sign_end := qmod360 (sign_start + 30)
  aspect_positions.filterMap (fun pos =>
    let pos_normalized := qmod360 pos
    if sign_start < sign_end then
      if sign_start ≤ pos_normalized && pos_normalized < sign_end then
        some pos_normalized
      else none
    else
      if pos_normalized ≥ sign_start || pos_normalized < sign_end then
        some pos_normalized
      else none)

/-- The future-aspect list computed by `_void_by_sign_method`: for each
other planet and aspect type, target positions in the Moon's sign strictly
ahead of the Moon and reachable before the sign boundary. -/
def voidBySignFutureAspects (chart : HoraryChart) : List (Planet × Aspect × ℚ) :=
  let moon_pos := chart.planets .moon
  let moon_degree_in_sign := qmod30 moon_pos.longitude
  let degrees_left_in_sign := 30 - moon_degree_in_sign
  (planetList.filter (fun p => p ≠ Planet.moon)).flatMap (fun planet =>
    aspectList.flatMap (fun aspect_type =>
      (_calculate_aspect_positions (chart.planets planet).longitude aspect_type
          moon_pos.sign).filterMap (fun target_position =>
        let target_degree_in_sign := qmod30 target_position
        if target_degree_in_sign > moon_degree_in_sign then
          let degrees_to_target := target_degree_in_sign - moon_degree_in_sign
          if degrees_to_target < degrees_left_in_sign then
            some (planet, aspect_type, target_degree_in_sign)
          else none
        else none)))

/-- `_void_by_sign_method`: traditional void-of-course by sign boundary,
with the stationary-Moon early return and the narrative-only traditional
exceptions. -/
def _void_by_sign_method (config : HoraryConfig) (chart : HoraryChart) : VoidResult :=
  let moon_pos := chart.planets .moon
  let moon_degree_in_sign := qmod30 moon_pos.longitude
  let degrees_left_in_sign := 30 - moon_degree_in_sign
  if |moon_pos.speed| < config.timing.stationary_speed_threshold then
    { void := false, exception := false,
      degrees_left_in_sign := some degrees_left_in_sign }
  else
    let future_aspects := voidBySignFutureAspects chart
    let ve := config.moon.void_exceptions
    let exceptions :=
      if moon_pos.sign = Sign.cancer && ve.cancer then true
      else if moon_pos.sign = Sign.sagittarius && ve.sagittarius then true
      else if moon_pos.sign = Sign.taurus && ve.taurus then true
      else false
    { void := future_aspects.isEmpty, exception := exceptions,
      degrees_left_in_sign := some degrees_left_in_sign }

/-- `_void_by_orb_method`: void unless the Moon is within the configured
orb of some aspect to some planet. -/
def _void_by_orb_method (config : HoraryConfig) (chart : HoraryChart) : VoidResult :=
  let moon_pos := chart.planets .moon
  let within := (planetList.filter (fun p => p ≠ Planet.moon)).any (fun planet =>
    let planet_pos := chart.planets planet
    let s0 := |moon_pos.longitude - planet_pos.longitude|
    let separation := if s0 > 180 then 360 - s0 else s0
    aspectList.any (fun aspect_type =>
      |separation - aspect_type.degrees| ≤ config.orbs.void_orb_deg))
  if within then { void := false, exception := false, degrees_left_in_sign := none }
  else { void := true, exception := false, degrees_left_in_sign := none }

/-- William Lilly's sign exception set (`lilly_exceptions` in the source). -/
def lillyExceptionSigns : List Sign :=
  [Sign.cancer, Sign.taurus, Sign.sagittarius, Sign.pisces]

/-- `_void_lilly_method`: delegates the whole computation to
`_void_by_sign_method` and overwrites the `exception` field with the Lilly
sign test. -/
def _void_lilly_method (config : HoraryConfig) (chart : HoraryChart) : VoidResult :=
  let moon_pos := chart.planets .moon
  let exception := decide (moon_pos.sign ∈ lillyExceptionSigns)
  let void_result := _void_by_sign_method config chart
  { void_result with exception := exception }

/-- `_is_moon_void_of_course_enhanced`: method dispatch on the configured
void rule (an unknown rule logs a warning and falls back to `by_sign`). -/
def _is_moon_void_of_course_enhanced (config : HoraryConfig)
    (chart : HoraryChart) : VoidResult :=
  match config.moon.void_rule with
  | .by_sign => _void_by_sign_method config chart
  | .by_orb => _void_by_orb_method config chart
  | .lilly => _void_lilly_method config chart
  | .unknown_rule => _void_by_sign_method config chart

/-- `_check_enhanced_moon_testimony`. -/
def _check_enhanced_moon_testimony (config : HoraryConfig) (chart : HoraryChart)
    (querent quesited : Planet) (ignore_void_moon : Bool) : MoonTestimonyResult :=
  let moon_pos := chart.planets .moon
  if ignore_void_moon then
    { favorable := false, unfavorable := false, void_of_course := true }
  else
    let void_check := _is_moon_void_of_course_enhanced config chart
    if void_check.void && !void_check.exception then
      { favorable := false, unfavorable := true, void_of_course := true }
    else
      let phase_bonus := _moon_phase_bonus config chart
      let speed_bonus := _moon_speed_bonus config chart
      let angularity_bonus := _moon_angularity_bonus config chart
      let total_moon_bonus := phase_bonus + speed_bonus + angularity_bonus
      let adjusted_dignity := moon_pos.dignity_score + total_moon_bonus
      let fromDignity : MoonTestimonyResult :=
        if adjusted_dignity > 0 then
          { favorable := true, unfavorable := false, void_of_course := false }
        else if adjusted_dignity < -3 then
          { favorable := false, unfavorable := true, void_of_course := false }
        else
          { favorable := false, unfavorable := false, void_of_course := false }
      match chart.moon_next_aspect with
      | some next_aspect =>
        if next_aspect.planet = querent || next_aspect.planet = quesited then
          let favorable := next_aspect.aspect = Aspect.conjunction
            || next_aspect.aspect = Aspect.sextile || next_aspect.aspect = Aspect.trine
          { favorable := favorable, unfavorable := !favorable, void_of_course := false }
        else fromDignity
      | none => fromDignity

/-- Solar-factor aggregation from `_analyze_enhanced_solar_factors`: the
per-condition planet counts and the `significant` flag. -/
def _analyze_enhanced_solar_factors (chart : HoraryChart)
    (ignore_combustion : Bool) : Nat × Nat × Nat × Bool :=
  let cazimi_planets := planetList.filter (fun p =>
    (chart.solar_analyses p).condition = SolarCondition.cazimi)
  let combusted_planets := planetList.filter (fun p =>
    (chart.solar_analyses p).condition = SolarCondition.combustion && !ignore_combustion)
  let under_beams_planets := planetList.filter (fun p =>
    (chart.solar_analyses p).condition = SolarCondition.under_beams && !ignore_combustion)
  let significant := !cazimi_planets.isEmpty || !combusted_planets.isEmpty
    || !under_beams_planets.isEmpty
  (cazimi_planets.length, combusted_planets.length, under_beams_planets.length,
   significant)

/-- The running confidence after the solar-factor stage of
`_apply_enhanced_judgment`: base confidence plus the cazimi bonus or minus
the combustion penalty. -/
def solarAdjustedConfidence (config : HoraryConfig) (chart : HoraryChart)
    (ignore_combustion : Bool) : Int :=
  let confidence0 := config.confidence.base_confidence
  let sf := _analyze_enhanced_solar_factors chart ignore_combustion
  let cazimi_count := sf.1
  let combustion_count := if ignore_combustion then 0 else sf.2.1
  let significant := sf.2.2.2
  if significant then
    if cazimi_count > 0 then confidence0 + config.confidence.solar.cazimi_bonus
    else if combustion_count > 0 && !ignore_combustion then
      confidence0 - config.confidence.solar.combustion_penalty
    else confidence0
  else confidence0

/-- `_apply_enhanced_judgment`: the judgment state machine.  Returns the
terminal verdict string and integer confidence of the result dict. -/
def _apply_enhanced_judgment (config : HoraryConfig) (sepOrder : SepOrderFn)
    (chart : HoraryChart) (quesited_house : Nat)
    (ignore_radicality ignore_void_moon ignore_combustion ignore_saturn_7th : Bool)
    (exaltation_confidence_boost : ℚ) : JudgmentOutcome :=
  if !ignore_radicality
      && !(_check_enhanced_radicality config chart ignore_saturn_7th) then
    { result := "NOT RADICAL", confidence := 0 }
  else
    match _identify_significators chart quesited_house with
    | none => { result := "CANNOT JUDGE", confidence := 0 }
    | some (querent_planet, quesited_planet) =>
      let confidence1 := solarAdjustedConfidence config chart ignore_combustion
      match _check_enhanced_perfection config sepOrder chart querent_planet
          quesited_planet exaltation_confidence_boost with
      | some perfection =>
        { result := if perfection.favorable then "YES" else "NO",
          confidence := min confidence1 perfection.confidence }
      | none =>
        match _check_enhanced_denial_conditions config chart querent_planet
            quesited_planet with
        | some denial_confidence =>
          { result := "NO", confidence := min confidence1 denial_confidence }
        | none =>
          let moon_testimony := _check_enhanced_moon_testimony config chart
            querent_planet quesited_planet ignore_void_moon
          if moon_testimony.favorable then
            { result := "YES",
              confidence := min confidence1 config.confidence.lunar_confidence_caps.favorable }
          else if moon_testimony.unfavorable then
            { result := "NO",
              confidence := min confidence1 config.confidence.lunar_confidence_caps.unfavorable }
          else
            { result := "UNCLEAR",
              confidence := min confidence1 config.confidence.lunar_confidence_caps.neutral }

/-! ## Applying-aspect determination (`calculator.py`) -/

/-- The two `while` normalization loops of `_is_applying_enhanced`
(`while separation > 180: separation -= 360; while separation < -180:
separation += 360`), written as their closed-form fixed point: each branch
subtracts/adds exactly as many multiples of 360 as the loop would. -/
def norm180 (x : ℚ) : ℚ :=
  let y := if x > 180 then x - 360 * ⌈(x - 180) / 360⌉ else x
  if y < -180 then y + 360 * ⌈(-180 - y) / 360⌉ else y

/-- Python's `min(targets, key=lambda t: abs(separation - t))`: first
element attaining the minimal key. -/
def minByAbsDist (separation : ℚ) : List ℚ → ℚ
  | [] => 0
  | t :: ts => ts.foldl (fun best u =>
      if |separation - u| < |separation - best| then u else best) t

/-- The faster-moving body of a pair (`_is_applying_enhanced`: "Faster
planet applies to slower planet"). -/
def applyingFaster (pos1 pos2 : PlanetPosition) : PlanetPosition :=
  if |pos1.speed| > |pos2.speed| then pos1 else pos2

/-- The slower-moving body of a pair. -/
def applyingSlower (pos1 pos2 : PlanetPosition) : PlanetPosition :=
  if |pos1.speed| > |pos2.speed| then pos2 else pos1

/-- The candidate target separations for an aspect
(`_is_applying_enhanced`: both directions, plus the mirrored angles for
non-axial aspects). -/
def applyingTargets (aspect : Aspect) : List ℚ :=
  let target := aspect.degrees
  if target ≠ 0 && target ≠ 180 then [target, -target, target - 360, -target + 360]
  else [target, -target]

/-- `current_orb` of `_is_applying_enhanced`: distance of the normalized
separation from the closest target. -/
def applyingCurrentOrb (pos1 pos2 : PlanetPosition) (aspect : Aspect) : ℚ :=
  let separation := norm180 ((applyingFaster pos1 pos2).longitude
    - (applyingSlower pos1 pos2).longitude)
  |separation - minByAbsDist separation (applyingTargets aspect)|

/-- `_is_applying_enhanced`: directional applying check with the sign-exit
guard (spec §4.2).  `days_to_perfect` is `float('inf')` when the relative
speed vanishes, so the Python comparison `days_to_perfect > exit` is then
true for every truthy exit value. -/
def _is_applying_enhanced (config : HoraryConfig) (pos1 pos2 : PlanetPosition)
    (aspect : Aspect) : Bool :=
  let faster := applyingFaster pos1 pos2
  let slower := applyingSlower pos1 pos2
  let current_orb := applyingCurrentOrb pos1 pos2 aspect
  let relative_speed := |faster.speed - slower.speed|
  let perfectExceeds : Option ℚ → Bool := fun exit =>
    pyTruthy exit &&
      (relative_speed = 0 || current_orb / relative_speed > exit.getD 0)
  if perfectExceeds (days_to_sign_exit faster.longitude faster.speed) then false
  else if perfectExceeds (days_to_sign_exit slower.longitude slower.speed) then false
  else
    let separation := norm180 (faster.longitude - slower.longitude)
    let closest_target := minByAbsDist separation (applyingTargets aspect)
    let future_separation := norm180 (separation
      + (faster.speed - slower.speed) * config.timing.timing_precision_days)
    let future_orb := |future_separation - closest_target|
    future_orb < current_orb

/-! ## House placement (`calculator.py`) -/

/-- First index `i` in `[start, start + fuel)` with `p i`, mirroring the
`for i in range(12)` scan of `_calculate_house_position`. -/
def findFirstIdx (p : Nat → Bool) : Nat → Nat → Option Nat
  | _, 0 => none
  | start, fuel + 1 => if p start then some start else findFirstIdx p (start + 1) fuel

/-- The arc test of `_calculate_house_position` for arc `i`: cusp `i` to
cusp `(i+1) % 12`, with the wraparound branch when the arc crosses 0°. -/
def houseArcContains (houses : List ℚ) (lon : ℚ) (i : Nat) : Bool :=
  let current_cusp := qmod360 (houses.getD i 0)
  let next_cusp := qmod360 (houses.getD ((i + 1) % 12) 0)
  if current_cusp > next_cusp then
    lon ≥ current_cusp || lon < next_cusp
  else
    current_cusp ≤ lon && lon < next_cusp

/-- `_calculate_house_position`: first matching cusp arc, defaulting to
house 1. -/
def _calculate_house_position (longitude : ℚ) (houses : List ℚ) : Nat :=
  let lon := qmod360 longitude
  match findFirstIdx (houseArcContains houses lon) 0 12 with
  | some i => i + 1
  | none => 1

/-! ## Timezone resolution (`TimezoneManager.parse_datetime_with_timezone`).

Naive local wall-clock times are embedded as integer minutes since
2021-01-01 00:00 local.  The behavior of the external timezone libraries is
captured by a `TZModel`: `offsetFold0` is the UTC offset (minutes) that
`zoneinfo` attaches to a naive time via `datetime.replace` (PEP 495 fold=0:
the pre-transition rule on ambiguous and non-existent times), `offsetStd`
the offset `pytz.localize(..., is_dst=False)` picks for an ambiguous time,
and the two predicates mark the fall-back and spring-forward hours on which
`pytz.localize` raises. -/

/-- External timezone-library behavior for one named zone. -/
structure TZModel where
  isAmbiguous : Int → Bool
  isNonexistent : Int → Bool
  offsetFold0 : Int → Int
  offsetStd : Int → Int

/-- The IANA America/New_York rules for 2021 (EST = UTC−5 = −300 min,
EDT = UTC−4 = −240 min; spring-forward gap 2021-03-14 02:00–03:00 local,
fall-back ambiguity 2021-11-07 01:00–02:00 local). -/
def americaNewYork2021 : TZModel where
  isAmbiguous := fun t => 446460 ≤ t && t < 446520
  isNonexistent := fun t => 103800 ≤ t && t < 103860
  offsetFold0 := fun t => if t < 103860 then -300 else if t < 446520 then -240 else -300
  offsetStd := fun _ => -300

/-- `parse_datetime_with_timezone` for an explicit, valid zone name, after
the naive datetime has been parsed: returns (local wall-clock minutes, UTC
minutes).  When `zoneinfo` is importable (`ZoneInfo` is not `None`) the
source attaches the zone with `datetime.replace(tzinfo=tz)` and performs no
ambiguity/non-existence handling; only the `pytz` fallback branch catches
`AmbiguousTimeError` (resolving with `is_dst=False`) and
`NonExistentTimeError` (advancing the naive time by one hour before
localizing). -/
def parse_datetime_with_timezone (useZoneInfo : Bool) (tz : TZModel)
    (dt_naive : Int) : Int × Int :=
  if useZoneInfo then
    (dt_naive, dt_naive - tz.offsetFold0 dt_naive)
  else if tz.isAmbiguous dt_naive then
    (dt_naive, dt_naive - tz.offsetStd dt_naive)
  else if tz.isNonexistent dt_naive then
    let dt_adjusted := dt_naive + 60
    (dt_adjusted, dt_adjusted - tz.offsetFold0 dt_adjusted)
  else
    (dt_naive, dt_naive - tz.offsetFold0 dt_naive)

/-! ## Top-level error handling (`judge_question`) -/

/-- The exception taxonomy visible to `judge_question`'s handlers:
`LocationError` and everything else caught by the generic
`except Exception` handler. -/
inductive PyExc where
  | locationError (msg : String)
  | otherError (msg : String)
deriving DecidableEq, Repr

/-- Collaborator behaviors consumed inside `judge_question`'s `try` block,
each an `Except` value (an erroring collaborator raises; spec §6). -/
structure JudgeEnv where
  geolocatorAvailable : Bool
  geocode : Except PyExc (ℚ × ℚ × String)
  currentTimeStep : Except PyExc Unit
  parseDatetimeStep : Except PyExc Unit
  calculateChart : Except PyExc HoraryChart
  questionQuesitedHouse : Except PyExc Nat
  postSteps : Except PyExc Unit
  judgmentReasoning : List String
  sepOrder : SepOrderFn

/-- Caller-facing arguments of `judge_question` that steer its control
flow (`date_str`/`time_str` presence stands for Python truthiness of the
strings). -/
structure JudgeArgs where
  use_current_time : Bool
  dateProvided : Bool
  timeProvided : Bool
  manual_houses : Option (List Nat)
  ignore_radicality : Bool
  ignore_void_moon : Bool
  ignore_combustion : Bool
  ignore_saturn_7th : Bool
  exaltation_confidence_boost : Option ℚ

/-- The semantic content of the dict returned by `judge_question`. -/
structure JudgeResult where
  judgment : String
  confidence : Int
  reasoning : List String
deriving DecidableEq, Repr

/-- The body of `judge_question`'s `try` block as a fallible computation:
geocoding (fail-fast), datetime resolution, chart calculation, question
analysis with the manual-house override, the enhanced judgment, and the
serialization steps. -/
def judgeQuestionPipeline (config : HoraryConfig) (env : JudgeEnv)
    (args : JudgeArgs) : Except PyExc JudgeResult := do
  let exaltation_confidence_boost :=
    match args.exaltation_confidence_boost with
    | some b => b
    | none => config.confidence.reception.mutual_exaltation_bonus
  if !env.geolocatorAvailable then
    throw (.locationError "Geocoding service not available")
  let _ ← env.geocode
  if args.use_current_time then
    let _ ← env.currentTimeStep
  else
    if !args.dateProvided || !args.timeProvided then
      throw (.otherError "Date and time must be provided when not using current time")
    let _ ← env.parseDatetimeStep
  let chart ← env.calculateChart
  let analyzed_house ← env.questionQuesitedHouse
  let quesited_house :=
    match args.manual_houses with
    | some l =>
      if l.isEmpty then analyzed_house
      else if l.length > 1 then l.getD 1 0 else 7
    | none => analyzed_house
  let judgment := _apply_enhanced_judgment config env.sepOrder chart quesited_house
    args.ignore_radicality args.ignore_void_moon args.ignore_combustion
    args.ignore_saturn_7th exaltation_confidence_boost
  let _ ← env.postSteps
  return { judgment := judgment.result, confidence := judgment.confidence,
           reasoning := env.judgmentReasoning }

/-- `judge_question`: the `try/except` wrapper.  A `LocationError` becomes a
`LOCATION_ERROR` result, any other exception an `ERROR` result, each with
confidence 0 and the message in the reasoning list; no exception escapes
(the return type is total). -/
def judge_question (config : HoraryConfig) (env : JudgeEnv)
    (args : JudgeArgs) : JudgeResult :=
  match judgeQuestionPipeline config env args with
  | .ok r => r
  | .error (.locationError msg) =>
    { judgment := "LOCATION_ERROR", confidence := 0,
      reasoning := ["Location error: " ++ msg] }
  | .error (.otherError msg) =>
    { judgment := "ERROR", confidence := 0,
      reasoning := ["Calculation error: " ++ msg] }

/-! ## Concrete fixtures used by witnesses and counterexamples -/

/-- Build a `PlanetPosition` the way `calculate_chart` does (`retrograde`
iff the signed speed is negative, latitude immaterial to judgment). -/
def mkPos (planet : Planet) (longitude : ℚ) (house : Nat) (sign : Sign)
    (speed : ℚ) (dignity : Int) : PlanetPosition :=
  { planet := planet, longitude := longitude, latitude := 0, house := house,
    sign := sign, dignity_score := dignity, retrograde := decide (speed < 0),
    speed := speed }

/-- A trivial solar analysis (planet free of the Sun). -/
def freeSolar (p : Planet) : SolarAnalysis :=
  { planet := p, distance_from_sun := 90, condition := .free }

/-- A concrete configuration with every bonus/penalty/confidence value
inside `[0, 100]` and documented-looking defaults. -/
def testConfig : HoraryConfig where
  orbs := { cazimi_orb_arcmin := 17/2, combustion_orb := 17/2,
            under_beams_orb := 15, void_orb_deg := 6 }
  timing := { stationary_speed_threshold := 1/10, timing_precision_days := 1/8 }
  radicality := { asc_too_early := 3, asc_too_late := 27,
                  saturn_7th_enabled := false, via_combusta_enabled := false,
                  via_combusta := { libra_start := 15, scorpio_full := true,
                                    capricorn_start := 15 } }
  confidence :=
    { base_confidence := 100,
      solar := { cazimi_bonus := 15, combustion_penalty := 10 },
      perfection := { direct_with_mutual_rulership := 95,
                      direct_with_mutual_exaltation := 85,
                      direct_basic := 75, translation_of_light := 70,
                      collection_of_light := 65, reception_only := 80 },
      denial := { prohibition := 25, frustration_retrograde := 20 },
      lunar_confidence_caps := { favorable := 75, unfavorable := 70, neutral := 50 },
      reception := { mutual_exaltation_bonus := 15 } }
  moon :=
    { void_rule := .by_sign,
      void_exceptions := { cancer := true, sagittarius := true, taurus := true },
      phase_bonus := { new_moon := 0, waxing_crescent := 1, first_quarter := 2,
                       waxing_gibbous := 2, full_moon := 3, waning_gibbous := 1,
                       last_quarter := 0, waning_crescent := -1 },
      speed_bonus := { very_slow := -2, slow := -1, average := 0, fast := 1,
                       very_fast := 2 },
      angularity_bonus := { angular := 2, succedent := 0, cadent := -1 },
      translation := { require_speed_advantage := false,
                       require_proper_sequence := false },
      collection := { require_collector_dignity := false,
                      minimum_dignity_score := 0 } }
  retrograde := { automatic_denial := false }

/-- Twelve equal house cusps starting at 0° Aries. -/
def equalHouses : List ℚ :=
  [0, 30, 60, 90, 120, 150, 180, 210, 240, 270, 300, 330]

/-- House rulers for `equalHouses` (house `i` cusp in sign `i-1`). -/
def equalHouseRulers : Nat → Option Planet
  | 1 => some .mars | 2 => some .venus | 3 => some .mercury | 4 => some .moon
  | 5 => some .sun | 6 => some .mercury | 7 => some .venus | 8 => some .mars
  | 9 => some .jupiter | 10 => some .saturn | 11 => some .saturn
  | 12 => some .jupiter
  | _ => none

/-- A quiet baseline chart: every planet stationary at 15° Aries, no
aspects, ascendant at 10° of its sign (radical for the test thresholds). -/
def baseChart : HoraryChart where
  planets := fun p => mkPos p 15 1 .aries 0 0
  aspects := []
  houses := equalHouses
  house_rulers := equalHouseRulers
  ascendant := 10
  midheaven := 270
  solar_analyses := freeSolar
  julian_day := 0
  moon_last_aspect := none
  moon_next_aspect := none

/-- A separation-order collaborator stub (never separating). -/
def sepNever : SepOrderFn := fun _ _ _ _ _ _ => false

/-- Sun at 100° (10° Cancer). -/
def sunAt100 : PlanetPosition := mkPos .sun 100 1 .cancer 1 0

/-- Mars at 112° (22° Cancer): 12° elongation from `sunAt100`. -/
def marsAt112 : PlanetPosition := mkPos .mars 112 1 .cancer (1/2) 0

/-- Sun at 70° (10° Gemini). -/
def sunAt70 : PlanetPosition := mkPos .sun 70 1 .gemini 1 0

/-- Mercury at 82° (22° Gemini): 12° elongation from `sunAt70`, rejoicing
in its own sign, so the traditional visibility exception holds. -/
def mercuryAt82 : PlanetPosition := mkPos .mercury 82 1 .gemini (11/10) 0

/-- A fast body at 28° Aries moving 13°/day: exits its sign in 2/13 day. -/
def fastAt28 : PlanetPosition := mkPos .moon 28 1 .aries 13 0

/-- A slow body at 272° (2° Capricorn) moving 1°/day. -/
def slowAt272 : PlanetPosition := mkPos .saturn 272 10 .capricorn 1 0

/-- The documented range of every configured confidence/bonus/penalty value:
percentage magnitudes in `[0, 100]`. -/
def ConfidenceConfigInRange (c : ConfidenceConfig) : Prop :=
  0 ≤ c.base_confidence ∧ c.base_confidence ≤ 100 ∧
  0 ≤ c.solar.cazimi_bonus ∧ c.solar.cazimi_bonus ≤ 100 ∧
  0 ≤ c.solar.combustion_penalty ∧ c.solar.combustion_penalty ≤ 100 ∧
  0 ≤ c.perfection.direct_with_mutual_rulership ∧
    c.perfection.direct_with_mutual_rulership ≤ 100 ∧
  0 ≤ c.perfection.direct_with_mutual_exaltation ∧
    c.perfection.direct_with_mutual_exaltation ≤ 100 ∧
  0 ≤ c.perfection.direct_basic ∧ c.perfection.direct_basic ≤ 100 ∧
  0 ≤ c.perfection.translation_of_light ∧ c.perfection.translation_of_light ≤ 100 ∧
  0 ≤ c.perfection.collection_of_light ∧ c.perfection.collection_of_light ≤ 100 ∧
  0 ≤ c.perfection.reception_only ∧ c.perfection.reception_only ≤ 100 ∧
  0 ≤ c.denial.prohibition ∧ c.denial.prohibition ≤ 100 ∧
  0 ≤ c.denial.frustration_retrograde ∧ c.denial.frustration_retrograde ≤ 100 ∧
  0 ≤ c.lunar_confidence_caps.favorable ∧ c.lunar_confidence_caps.favorable ≤ 100 ∧
  0 ≤ c.lunar_confidence_caps.unfavorable ∧ c.lunar_confidence_caps.unfavorable ≤ 100 ∧
  0 ≤ c.lunar_confidence_caps.neutral ∧ c.lunar_confidence_caps.neutral ≤ 100

/-- The direct applying square between Mars and Venus used by the C2
scenarios: orb 4°, 4° to exact. -/
def c2Aspect : AspectInfo :=
  { planet1 := .mars, planet2 := .venus, aspect := .square, orb := 4,
    applying := true, degrees_to_exact := 4 }

/-- Planet placements with Mars at 15° Libra and Venus at 15° Aries —
mutual reception by rulership — and everything else parked at 15° Aries. -/
def c2Planets : Planet → PlanetPosition := fun p =>
  match p with
  | .mars => mkPos .mars 195 7 .libra (1/2) 0
  | .venus => mkPos .venus 15 1 .aries 1 0
  | _ => mkPos p 15 1 .aries 0 0

/-- Solar analyses with Mercury combusted and everyone else free. -/
def mercuryCombustSolar : Planet → SolarAnalysis := fun p =>
  if p = Planet.mercury then
    { planet := p, distance_from_sun := 3, condition := .combustion }
  else freeSolar p

/-- C2 counterexample chart: radical, Mars/Venus significators in mutual
rulership with a perfecting applying square, and a combusted Mercury that
drags the running confidence below the configured rulership confidence. -/
def chartC2 : HoraryChart :=
  { baseChart with
    planets := c2Planets, aspects := [c2Aspect],
    solar_analyses := mercuryCombustSolar }

/-- The same chart with no solar afflictions (C2 witness). -/
def chartC2clean : HoraryChart := { chartC2 with solar_analyses := freeSolar }

/-- Planet placements for the C1 counterexample: Moon at 28° Aries moving
13°/day with no aspect target left in Aries, Mars and Venus as significators
with no aspect between them, everything else at 15° of a sign. -/
def c1Planets : Planet → PlanetPosition := fun p =>
  match p with
  | .moon => mkPos .moon 28 1 .aries 13 0
  | .mars => mkPos .mars 15 1 .aries (1/2) 0
  | .venus => mkPos .venus 45 2 .taurus 1 0
  | _ => mkPos p 15 1 .aries 1 0

/-- C1 counterexample chart: radical, valid significators, combusted
Mercury, no perfection route, no denial, void Moon. -/
def chartC1 : HoraryChart :=
  { baseChart with
    planets := c1Planets, aspects := [],
    solar_analyses := mercuryCombustSolar }

/-- C1 counterexample configuration: every confidence value inside
`[0, 100]`, but the combustion penalty (80) exceeds the base confidence
(50).  Translation requires a speed advantage, so the translation scan is
skipped. -/
def counterConfig : HoraryConfig :=
  { testConfig with
    confidence := { testConfig.confidence with
      base_confidence := 50,
      solar := { cazimi_bonus := 15, combustion_penalty := 80 } },
    moon := { testConfig.moon with
      translation := { require_speed_advantage := true,
                       require_proper_sequence := false } } }

/-- Circular offset of cusp `i` from cusp 0, normalized to `[0, 360)`. -/
def cuspOffsets (houses : List ℚ) (i : Nat) : ℚ :=
  qmod360 (houses.getD i 0 - houses.getD 0 0)

/-- The cusp offsets extended with the full circle at index 12 (the upper
bound of the last arc). -/
def cuspOffsetsExt (houses : List ℚ) (i : Nat) : ℚ :=
  if i < 12 then cuspOffsets houses i else 360

/-- The cusp list describes a valid partition of the circle: twelve cusps
in strictly increasing circular order measured from cusp 0, so the twelve
right-open arcs cusp `i` → cusp `i+1 mod 12` tile the circle (spec §8
"valid partition"). -/
def HouseCuspsValid (houses : List ℚ) : Prop :=
  houses.length = 12 ∧
  ∀ i j, i < j → j < 12 → cuspOffsets houses i < cuspOffsets houses j

/-- The same cusp set listed starting from cusp `k` instead of cusp 0. -/
def rotateCusps (houses : List ℚ) (k : Nat) : List ℚ :=
  (List.range 12).map (fun i => houses.getD ((i + k) % 12) 0)

/-- A fully healthy collaborator environment. -/
def envOk : JudgeEnv :=
  { geolocatorAvailable := true, geocode := .ok (0, 0, "Test"),
    currentTimeStep := .ok (), parseDatetimeStep := .ok (),
    calculateChart := .ok baseChart, questionQuesitedHouse := .ok 7,
    postSteps := .ok (), judgmentReasoning := ["ok"], sepOrder := sepNever }

/-- Environment with no geolocator (the source raises
`LocationError("Geocoding service not available")`). -/
def envUnavailable : JudgeEnv := { envOk with geolocatorAvailable := false }

/-- Environment whose chart calculation raises a generic exception. -/
def envChartError : JudgeEnv := { envOk with calculateChart := .error (.otherError "boom") }

/-- Default caller arguments: current time, no overrides. -/
def defaultArgs : JudgeArgs :=
  { use_current_time := true, dateProvided := false, timeProvided := false,
    manual_houses := none, ignore_radicality := false, ignore_void_moon := false,
    ignore_combustion := false, ignore_saturn_7th := false,
    exaltation_confidence_boost := none }

/-! # Theorems -/

/-! ## Arithmetic facts about the Python `%` embedding -/

theorem qmod360_nonneg (x : ℚ) : 0 ≤ qmod360 x := by
  unfold qmod360
  have h := Int.floor_le (x / 360)
  nlinarith [h]

theorem qmod360_lt (x : ℚ) : qmod360 x < 360 := by
  unfold qmod360
  have h := Int.lt_floor_add_one (x / 360)
  nlinarith [h]

theorem qmod360_eq_self {x : ℚ} (h0 : 0 ≤ x) (h1 : x < 360) : qmod360 x = x := by
  unfold qmod360
  have : ⌊x / 360⌋ = 0 := by
    apply Int.floor_eq_zero_iff.mpr
    constructor
    · positivity
    · rw [div_lt_one (by norm_num : (0:ℚ) < 360)]; simpa using h1
  simp [this]

theorem qmod30_nonneg (x : ℚ) : 0 ≤ qmod30 x := by
  unfold qmod30
  have h := Int.floor_le (x / 30)
  nlinarith [h]

theorem qmod30_lt (x : ℚ) : qmod30 x < 30 := by
  unfold qmod30
  have h := Int.lt_floor_add_one (x / 30)
  nlinarith [h]

/-! ## Further `qmod360` arithmetic (used by the house-partition proof) -/

theorem qmod360_add_int (x : ℚ) (k : ℤ) : qmod360 (x + 360 * k) = qmod360 x := by
  unfold qmod360
  have hdiv : (x + 360 * k) / 360 = x / 360 + k := by
    field_simp
    ring
  rw [hdiv, Int.floor_add_int]
  push_cast
  ring

theorem qmod360_sub_qmod360 (p q : ℚ) :
    qmod360 (qmod360 p - qmod360 q) = qmod360 (p - q) := by
  have h : qmod360 p - qmod360 q = (p - q) + 360 * ((⌊q / 360⌋ - ⌊p / 360⌋ : ℤ) : ℚ) := by
    unfold qmod360
    push_cast
    ring
  rw [h, qmod360_add_int]

theorem qmod360_sub_of_le {u v : ℚ} (hv0 : 0 ≤ v) (hu1 : u < 360) (h : v ≤ u) :
    qmod360 (u - v) = u - v :=
  qmod360_eq_self (by linarith) (by linarith)

theorem qmod360_sub_of_lt {u v : ℚ} (hu0 : 0 ≤ u) (hv1 : v < 360) (h : u < v) :
    qmod360 (u - v) = u - v + 360 := by
  have h1 : qmod360 (u - v) = qmod360 (u - v + 360) := by
    have h2 : u - v = (u - v + 360) + 360 * ((-1 : ℤ) : ℚ) := by
      push_cast
      ring
    nth_rewrite 1 [h2]
    rw [qmod360_add_int]
  rw [h1, qmod360_eq_self (by linarith) (by linarith)]

/-- Membership of a normalized point in a right-open circular interval of
positive length `d` starting at `s`, phrased through `qmod360`. -/
theorem qmod_lt_iff_between {X s d : ℚ} (hX0 : 0 ≤ X) (hX1 : X < 360)
    (hs0 : 0 ≤ s) (hs1 : s < 360) (hsd : s + d ≤ 360) :
    (qmod360 (X - s) < d ↔ s ≤ X ∧ X < s + d) := by
  by_cases hx : s ≤ X
  · rw [qmod360_sub_of_le hs0 hX1 hx]
    constructor
    · intro h
      exact ⟨hx, by linarith⟩
    · rintro ⟨-, h⟩
      linarith
  · push_neg at hx
    rw [qmod360_sub_of_lt hX0 hs1 hx]
    constructor
    · intro h
      exfalso
      linarith
    · rintro ⟨h1, -⟩
      exfalso
      linarith

/-! ## The house-arc test in circular coordinates -/

/-- The wraparound arc test of `_calculate_house_position` is exactly
"the circular distance from cusp `i` to the point is smaller than the
circular distance from cusp `i` to the next cusp". -/
theorem houseArcContains_iff_qmod (houses : List ℚ) (x : ℚ) (i : Nat)
    (hx0 : 0 ≤ x) (hx1 : x < 360) :
    (houseArcContains houses x i = true ↔
      qmod360 (x - qmod360 (houses.getD i 0)) <
        qmod360 (qmod360 (houses.getD ((i + 1) % 12) 0)
          - qmod360 (houses.getD i 0))) := by
  simp only [houseArcContains]
  set α := qmod360 (houses.getD i 0) with hαdef
  set β := qmod360 (houses.getD ((i + 1) % 12) 0) with hβdef
  have hα0 : 0 ≤ α := qmod360_nonneg _
  have hα1 : α < 360 := qmod360_lt _
  have hβ0 : 0 ≤ β := qmod360_nonneg _
  have hβ1 : β < 360 := qmod360_lt _
  by_cases hab : α > β
  · rw [if_pos hab]
    simp only [Bool.or_eq_true, decide_eq_true_eq]
    rw [qmod360_sub_of_lt hβ0 hα1 hab]
    by_cases hx : α ≤ x
    · rw [qmod360_sub_of_le hα0 hx1 hx]
      constructor
      · intro _
        linarith
      · intro _
        exact Or.inl hx
    · push_neg at hx
      rw [qmod360_sub_of_lt hx0 hα1 hx]
      constructor
      · rintro (h | h)
        · exact absurd h (by linarith)
        · linarith
      · intro h
        right
        linarith
  · push_neg at hab
    rw [if_neg (not_lt.mpr hab)]
    simp only [Bool.and_eq_true, decide_eq_true_eq]
    rw [qmod360_sub_of_le hα0 hβ1 hab]
    by_cases hx : α ≤ x
    · rw [qmod360_sub_of_le hα0 hx1 hx]
      constructor
      · rintro ⟨-, h⟩
        linarith
      · intro h
        exact ⟨hx, by linarith⟩
    · push_neg at hx
      rw [qmod360_sub_of_lt hx0 hα1 hx]
      constructor
      · rintro ⟨h1, -⟩
        exact absurd h1 (by linarith)
      · intro h
        exfalso
        linarith

/-- On a valid cusp list, arc `i` contains a longitude iff its offset from
cusp 0 lies in `[offset i, offset (i+1))` (with offset 12 read as 360). -/
theorem houseArc_mem_iff (houses : List ℚ) (lon : ℚ) (hv : HouseCuspsValid houses)
    (i : Nat) (hi : i < 12) :
    (houseArcContains houses (qmod360 lon) i = true ↔
      cuspOffsetsExt houses i ≤ qmod360 (lon - houses.getD 0 0) ∧
      qmod360 (lon - houses.getD 0 0) < cuspOffsetsExt houses (i + 1)) := by
  obtain ⟨-, hmono⟩ := hv
  set X := qmod360 (lon - houses.getD 0 0) with hXdef
  have hX0 : 0 ≤ X := qmod360_nonneg _
  have hX1 : X < 360 := qmod360_lt _
  have hsb : ∀ j, 0 ≤ cuspOffsets houses j ∧ cuspOffsets houses j < 360 :=
    fun j => ⟨qmod360_nonneg _, qmod360_lt _⟩
  have hs0 : cuspOffsets houses 0 = 0 := by
    unfold cuspOffsets
    rw [sub_self]
    norm_num [qmod360]
  rw [houseArcContains_iff_qmod houses (qmod360 lon) i (qmod360_nonneg _) (qmod360_lt _)]
  have hleft : qmod360 (qmod360 lon - qmod360 (houses.getD i 0)) =
      qmod360 (X - cuspOffsets houses i) := by
    rw [qmod360_sub_qmod360]
    rw [hXdef]
    unfold cuspOffsets
    rw [qmod360_sub_qmod360]
    ring_nf
  rw [hleft]
  have hnext : qmod360 (qmod360 (houses.getD ((i + 1) % 12) 0)
      - qmod360 (houses.getD i 0)) =
      qmod360 (cuspOffsets houses ((i + 1) % 12) - cuspOffsets houses i) := by
    unfold cuspOffsets
    rw [qmod360_sub_qmod360, qmod360_sub_qmod360]
    ring_nf
  rw [hnext]
  by_cases hlast : i = 11
  · subst hlast
    have h12 : (11 + 1) % 12 = 0 := by norm_num
    rw [h12, hs0]
    have hpos : 0 < cuspOffsets houses 11 := by
      have := hmono 0 11 (by omega) (by omega)
      rw [hs0] at this
      exact this
    have hq : qmod360 (0 - cuspOffsets houses 11) = 360 - cuspOffsets houses 11 := by
      rw [qmod360_sub_of_lt le_rfl (hsb 11).2 hpos]
      ring
    rw [hq]
    have hbetween := qmod_lt_iff_between hX0 hX1 (hsb 11).1 (hsb 11).2
      (by linarith : cuspOffsets houses 11 + (360 - cuspOffsets houses 11) ≤ 360)
    rw [hbetween]
    unfold cuspOffsetsExt
    rw [if_pos (by omega : (11:Nat) < 12), if_neg (by omega : ¬(11 + 1 < 12))]
    constructor
    · rintro ⟨h1, h2⟩
      exact ⟨h1, by linarith⟩
    · rintro ⟨h1, h2⟩
      exact ⟨h1, by linarith⟩
  · have hi11 : i < 11 := by omega
    have hmod : (i + 1) % 12 = i + 1 := Nat.mod_eq_of_lt (by omega)
    rw [hmod]
    have hlt : cuspOffsets houses i < cuspOffsets houses (i + 1) :=
      hmono i (i + 1) (by omega) (by omega)
    have hq : qmod360 (cuspOffsets houses (i + 1) - cuspOffsets houses i) =
        cuspOffsets houses (i + 1) - cuspOffsets houses i :=
      qmod360_sub_of_le (hsb i).1 (hsb (i + 1)).2 (le_of_lt hlt)
    rw [hq]
    have hbetween := qmod_lt_iff_between hX0 hX1 (hsb i).1 (hsb i).2
      (by linarith [(hsb (i+1)).2] :
        cuspOffsets houses i + (cuspOffsets houses (i + 1) - cuspOffsets houses i) ≤ 360)
    rw [hbetween]
    unfold cuspOffsetsExt
    rw [if_pos hi, if_pos (by omega : i + 1 < 12)]
    constructor
    · rintro ⟨h1, h2⟩
      exact ⟨h1, by linarith⟩
    · rintro ⟨h1, h2⟩
      exact ⟨h1, by linarith⟩

/-- On a valid cusp list every longitude lies in exactly one of the twelve
arcs. -/
theorem house_unique_arc (houses : List ℚ) (lon : ℚ) (hv : HouseCuspsValid houses) :
    ∃ i, i < 12 ∧ houseArcContains houses (qmod360 lon) i = true ∧
      ∀ j, j < 12 → houseArcContains houses (qmod360 lon) j = true → j = i := by
  obtain ⟨hlen, hmono⟩ := hv
  set X := qmod360 (lon - houses.getD 0 0) with hXdef
  have hX0 : 0 ≤ X := qmod360_nonneg _
  have hX1 : X < 360 := qmod360_lt _
  have hs0 : cuspOffsets houses 0 = 0 := by
    unfold cuspOffsets
    rw [sub_self]
    norm_num [qmod360]
  have humono : ∀ a b, a < b → b ≤ 12 →
      cuspOffsetsExt houses a < cuspOffsetsExt houses b := by
    intro a b hab hb
    unfold cuspOffsetsExt
    by_cases hb12 : b < 12
    · rw [if_pos (by omega), if_pos hb12]
      exact hmono a b hab hb12
    · have : b = 12 := by omega
      rw [if_pos (by omega), if_neg (by omega)]
      exact qmod360_lt _
  have humono' : ∀ a b, a ≤ b → b ≤ 12 →
      cuspOffsetsExt houses a ≤ cuspOffsetsExt houses b := by
    intro a b hab hb
    rcases eq_or_lt_of_le hab with h | h
    · rw [h]
    · exact le_of_lt (humono a b h hb)
  have hP0 : cuspOffsetsExt houses 0 ≤ X := by
    unfold cuspOffsetsExt
    rw [if_pos (by omega), hs0]
    exact hX0
  set P : Nat → Prop := fun n => cuspOffsetsExt houses n ≤ X with hPdef
  have hPdec : DecidablePred P := fun n => by
    rw [hPdef]
    infer_instance
  set i := @Nat.findGreatest P hPdec 11 with hidef
  have hi11 : i ≤ 11 := Nat.findGreatest_le 11
  have hPi : P i := @Nat.findGreatest_spec 0 P hPdec 11 (by omega) hP0
  have hub : X < cuspOffsetsExt houses (i + 1) := by
    by_cases hlast : i = 11
    · rw [hlast]
      unfold cuspOffsetsExt
      rw [if_neg (by omega)]
      exact hX1
    · have hnot : ¬P (i + 1) :=
        @Nat.findGreatest_is_greatest (i + 1) P hPdec 11 (by omega) (by omega)
      rw [hPdef] at hnot
      exact lt_of_not_le hnot
  refine ⟨i, by omega, ?_, ?_⟩
  · rw [houseArc_mem_iff houses lon ⟨hlen, hmono⟩ i (by omega)]
    exact ⟨hPi, hub⟩
  · intro j hj harcj
    rw [houseArc_mem_iff houses lon ⟨hlen, hmono⟩ j hj] at harcj
    obtain ⟨hj1, hj2⟩ := harcj
    by_contra hne
    rcases Nat.lt_or_ge j i with h | h
    · have : cuspOffsetsExt houses (j + 1) ≤ cuspOffsetsExt houses i :=
        humono' (j + 1) i (by omega) (by omega)
      have : X < X := lt_of_lt_of_le hj2 (le_trans this hPi)
      exact absurd this (lt_irrefl X)
    · have hij : i < j := by omega
      have : cuspOffsetsExt houses (i + 1) ≤ cuspOffsetsExt houses j :=
        humono' (i + 1) j (by omega) (by omega)
      have : X < X := lt_of_lt_of_le hub (le_trans this hj1)
      exact absurd this (lt_irrefl X)

/-- `findFirstIdx` returns the unique index satisfying the predicate when
everything before it fails. -/
theorem findFirstIdx_eq_some (p : Nat → Bool) :
    ∀ n s i, s ≤ i → i < s + n → p i = true →
      (∀ j, s ≤ j → j < i → p j = false) → findFirstIdx p s n = some i := by
  intro n
  induction n with
  | zero =>
    intro s i h1 h2 _ _
    omega
  | succ n ih =>
    intro s i h1 h2 hp hprev
    by_cases hs : s = i
    · subst hs
      rw [findFirstIdx, if_pos hp]
    · have hps : p s = false := hprev s le_rfl (by omega)
      rw [findFirstIdx, if_neg (by simp [hps])]
      exact ih (s + 1) i (by omega) (by omega) hp
        (fun j hj1 hj2 => hprev j (by omega) hj2)

/-- Cusps of the rotated list. -/
theorem rotateCusps_getD (houses : List ℚ) (k : Nat) :
    ∀ j, j < 12 → (rotateCusps houses k).getD j 0 = houses.getD ((j + k) % 12) 0 := by
  intro j hj
  unfold rotateCusps
  interval_cases j <;> rfl

/-- Arc `j` of the rotated list is arc `(j + k) % 12` of the original. -/
theorem rotateCusps_arc (houses : List ℚ) (k : Nat) (x : ℚ) :
    ∀ j, j < 12 → houseArcContains (rotateCusps houses k) x j =
      houseArcContains houses x ((j + k) % 12) := by
  intro j hj
  unfold houseArcContains
  rw [rotateCusps_getD houses k j hj,
    rotateCusps_getD houses k ((j + 1) % 12) (by omega)]
  have hmod : ((j + 1) % 12 + k) % 12 = ((j + k) % 12 + 1) % 12 := by omega
  rw [hmod]

/-! ## Facts about the while-loop normalization `norm180` -/

theorem norm180_eq_self {x : ℚ} (h1 : -180 ≤ x) (h2 : x ≤ 180) : norm180 x = x := by
  unfold norm180
  rw [if_neg (not_lt.mpr h2), if_neg (not_lt.mpr h1)]

theorem norm180_add360 {x : ℚ} (h1 : -540 ≤ x) (h2 : x < -180) :
    norm180 x = x + 360 := by
  unfold norm180
  have hx : ¬x > 180 := by linarith
  rw [if_neg hx]
  rw [if_pos h2]
  have hceil : (⌈(-180 - x) / 360⌉ : ℤ) = 1 := by
    rw [Int.ceil_eq_iff]
    constructor
    · push_cast
      rw [lt_div_iff (by norm_num : (0:ℚ) < 360)]
      linarith
    · push_cast
      rw [div_le_one (by norm_num : (0:ℚ) < 360)]
      linarith
  rw [hceil]
  push_cast
  ring

theorem norm180_sub360 {x : ℚ} (h1 : 180 < x) (h2 : x ≤ 540) :
    norm180 x = x - 360 := by
  unfold norm180
  rw [if_pos h1]
  have hceil : (⌈(x - 180) / 360⌉ : ℤ) = 1 := by
    rw [Int.ceil_eq_iff]
    constructor
    · push_cast
      rw [lt_div_iff (by norm_num : (0:ℚ) < 360)]
      linarith
    · push_cast
      rw [div_le_one (by norm_num : (0:ℚ) < 360)]
      linarith
  rw [hceil]
  have : ¬(x - 360 * ((1:ℤ):ℚ)) < -180 := by push_cast; linarith
  rw [if_neg this]
  push_cast
  ring

/-! ## C4 — sign exit aborts an otherwise applying aspect -/

/-- C4: `_is_applying_enhanced` returns false — regardless of whether the
orb is geometrically shrinking — whenever either body's directional
sign-exit time (a truthy value, i.e. a reported positive number of days) is
smaller than the aspect's estimated days-to-exact (current orb over
relative speed, `+∞` at zero relative speed); and conversely any pair
reported applying passed the sign-exit test for both bodies. -/
theorem applying_sign_exit_guard (config : HoraryConfig)
    (pos1 pos2 : PlanetPosition) (aspect : Aspect) :
    (∀ d : ℚ,
      days_to_sign_exit (applyingFaster pos1 pos2).longitude
        (applyingFaster pos1 pos2).speed = some d →
      d ≠ 0 →
      (|(applyingFaster pos1 pos2).speed - (applyingSlower pos1 pos2).speed| = 0 ∨
        applyingCurrentOrb pos1 pos2 aspect /
          |(applyingFaster pos1 pos2).speed - (applyingSlower pos1 pos2).speed| > d) →
      _is_applying_enhanced config pos1 pos2 aspect = false) ∧
    (∀ d : ℚ,
      days_to_sign_exit (applyingSlower pos1 pos2).longitude
        (applyingSlower pos1 pos2).speed = some d →
      d ≠ 0 →
      (|(applyingFaster pos1 pos2).speed - (applyingSlower pos1 pos2).speed| = 0 ∨
        applyingCurrentOrb pos1 pos2 aspect /
          |(applyingFaster pos1 pos2).speed - (applyingSlower pos1 pos2).speed| > d) →
      _is_applying_enhanced config pos1 pos2 aspect = false) ∧
    (_is_applying_enhanced config pos1 pos2 aspect = true →
      ∀ d : ℚ, d ≠ 0 →
        ((days_to_sign_exit (applyingFaster pos1 pos2).longitude
            (applyingFaster pos1 pos2).speed = some d →
          |(applyingFaster pos1 pos2).speed - (applyingSlower pos1 pos2).speed| ≠ 0 ∧
          applyingCurrentOrb pos1 pos2 aspect /
            |(applyingFaster pos1 pos2).speed - (applyingSlower pos1 pos2).speed| ≤ d) ∧
         (days_to_sign_exit (applyingSlower pos1 pos2).longitude
            (applyingSlower pos1 pos2).speed = some d →
          |(applyingFaster pos1 pos2).speed - (applyingSlower pos1 pos2).speed| ≠ 0 ∧
          applyingCurrentOrb pos1 pos2 aspect /
            |(applyingFaster pos1 pos2).speed - (applyingSlower pos1 pos2).speed| ≤ d))) := by
  refine ⟨?_, ?_, ?_⟩
  · intro d hexit hd0 hcmp
    simp only [_is_applying_enhanced, hexit]
    have hTrue : pyTruthy (some d) = true := by simp [pyTruthy, hd0]
    rcases hcmp with h | h
    · simp [hTrue, h]
    · simp [hTrue, h]
  · intro d hexit hd0 hcmp
    simp only [_is_applying_enhanced, hexit]
    have hTrue : pyTruthy (some d) = true := by simp [pyTruthy, hd0]
    rcases hcmp with h | h
    · simp [hTrue, h]
    · simp [hTrue, h]
  · intro happ d hd0
    by_cases hc1 : (pyTruthy (days_to_sign_exit (applyingFaster pos1 pos2).longitude
        (applyingFaster pos1 pos2).speed) &&
        (|(applyingFaster pos1 pos2).speed - (applyingSlower pos1 pos2).speed| = 0 ||
          applyingCurrentOrb pos1 pos2 aspect /
            |(applyingFaster pos1 pos2).speed - (applyingSlower pos1 pos2).speed| >
            (days_to_sign_exit (applyingFaster pos1 pos2).longitude
              (applyingFaster pos1 pos2).speed).getD 0)) = true
    · rw [_is_applying_enhanced] at happ
      simp only [hc1, if_true] at happ
      exact absurd happ (by simp)
    · by_cases hc2 : (pyTruthy (days_to_sign_exit (applyingSlower pos1 pos2).longitude
          (applyingSlower pos1 pos2).speed) &&
          (|(applyingFaster pos1 pos2).speed - (applyingSlower pos1 pos2).speed| = 0 ||
            applyingCurrentOrb pos1 pos2 aspect /
              |(applyingFaster pos1 pos2).speed - (applyingSlower pos1 pos2).speed| >
              (days_to_sign_exit (applyingSlower pos1 pos2).longitude
                (applyingSlower pos1 pos2).speed).getD 0)) = true
      · rw [_is_applying_enhanced] at happ
        simp only [hc1, hc2] at happ
        simp at happ
      · constructor
        · intro hexit
          rw [hexit] at hc1
          have hTrue : pyTruthy (some d) = true := by simp [pyTruthy, hd0]
          simp only [hTrue, Bool.true_and, Bool.or_eq_true, not_or,
            Bool.not_eq_true, decide_eq_false_iff_not, Option.getD_some] at hc1
          push_neg at hc1
          exact ⟨hc1.1, hc1.2⟩
        · intro hexit
          rw [hexit] at hc2
          have hTrue : pyTruthy (some d) = true := by simp [pyTruthy, hd0]
          simp only [hTrue, Bool.true_and, Bool.or_eq_true, not_or,
            Bool.not_eq_true, decide_eq_false_iff_not, Option.getD_some] at hc2
          push_neg at hc2
          exact ⟨hc2.1, hc2.2⟩

/-- Witness for C4: the Moon at 28° Aries (13°/day, sign exit in 2/13 day)
trine Saturn at 2° Capricorn (1°/day): orb 4°, relative speed 12°/day, so
perfection needs 1/3 day > 2/13 day — the applying check rejects the
pair. -/
theorem applying_sign_exit_guard_witness :
    days_to_sign_exit fastAt28.longitude fastAt28.speed = some (2/13) ∧
    _is_applying_enhanced testConfig fastAt28 slowAt272 .trine = false := by
  have hfaster : applyingFaster fastAt28 slowAt272 = fastAt28 := by
    norm_num [applyingFaster, fastAt28, slowAt272, mkPos]
  have hslower : applyingSlower fastAt28 slowAt272 = slowAt272 := by
    norm_num [applyingSlower, fastAt28, slowAt272, mkPos]
  have hexit : days_to_sign_exit fastAt28.longitude fastAt28.speed = some (2/13) := by
    norm_num [days_to_sign_exit, qmod30, fastAt28, mkPos]
  refine ⟨hexit, ?_⟩
  apply (applying_sign_exit_guard testConfig fastAt28 slowAt272 .trine).1 (2/13)
  · rw [hfaster]
    exact hexit
  · norm_num
  · right
    have horb : applyingCurrentOrb fastAt28 slowAt272 .trine = 4 := by
      have hsep : norm180 (fastAt28.longitude - slowAt272.longitude) = 116 := by
        have : fastAt28.longitude - slowAt272.longitude = -244 := by
          norm_num [fastAt28, slowAt272, mkPos]
        rw [this, norm180_add360 (by norm_num) (by norm_num)]
        norm_num
      simp only [applyingCurrentOrb, hfaster, hslower, hsep]
      norm_num [applyingTargets, minByAbsDist, Aspect.degrees, List.foldl]
    rw [horb, hfaster, hslower]
    norm_num [fastAt28, slowAt272, mkPos]

/-! ## C3 — solar-condition first-match hierarchy -/

/-- C3: for every non-Sun planet the solar-condition analyzer classifies by
a first-match hierarchy on elongation `e`: `e ≤` cazimi orb gives CAZIMI
(`exact_cazimi` iff `e ≤ 3` arcminutes, `traditional_exception` forced
false); else `e ≤` combustion orb gives COMBUSTION, downgraded to FREE with
`traditional_exception = true` when the visibility exception holds; else
`e ≤` under-beams orb gives UNDER_BEAMS with the same downgrade; else
FREE. -/
theorem solar_condition_first_match (orbs : OrbsConfig) (planet : Planet)
    (planet_pos sun_pos : PlanetPosition) (sun_altitude : ℚ)
    (hp : planet ≠ Planet.sun)
    (e : ℚ) (he : e = calculate_elongation planet_pos.longitude sun_pos.longitude)
    (exc : Bool)
    (hexc : exc = (if combustion_resistant planet then
      _check_enhanced_combustion_exception planet planet_pos sun_pos sun_altitude
      else false)) :
    (e ≤ orbs.cazimi_orb_arcmin / 60 →
      _analyze_enhanced_solar_condition orbs planet planet_pos sun_pos sun_altitude =
        { planet := planet, distance_from_sun := e, condition := .cazimi,
          exact_cazimi := decide (e ≤ 3/60), traditional_exception := false }) ∧
    (¬e ≤ orbs.cazimi_orb_arcmin / 60 → e ≤ orbs.combustion_orb →
      _analyze_enhanced_solar_condition orbs planet planet_pos sun_pos sun_altitude =
        (if exc then
          { planet := planet, distance_from_sun := e, condition := .free,
            exact_cazimi := false, traditional_exception := true }
         else
          { planet := planet, distance_from_sun := e, condition := .combustion,
            exact_cazimi := false, traditional_exception := false })) ∧
    (¬e ≤ orbs.cazimi_orb_arcmin / 60 → ¬e ≤ orbs.combustion_orb →
      e ≤ orbs.under_beams_orb →
      _analyze_enhanced_solar_condition orbs planet planet_pos sun_pos sun_altitude =
        (if exc then
          { planet := planet, distance_from_sun := e, condition := .free,
            exact_cazimi := false, traditional_exception := true }
         else
          { planet := planet, distance_from_sun := e, condition := .under_beams,
            exact_cazimi := false, traditional_exception := false })) ∧
    (¬e ≤ orbs.cazimi_orb_arcmin / 60 → ¬e ≤ orbs.combustion_orb →
      ¬e ≤ orbs.under_beams_orb →
      _analyze_enhanced_solar_condition orbs planet planet_pos sun_pos sun_altitude =
        { planet := planet, distance_from_sun := e, condition := .free,
          exact_cazimi := false, traditional_exception := false }) := by
  subst he
  subst hexc
  simp only [_analyze_enhanced_solar_condition, if_neg hp]
  refine ⟨fun h1 => ?_, fun h1 h2 => ?_, fun h1 h2 h3 => ?_, fun h1 h2 h3 => ?_⟩
  · rw [if_pos h1]
  · rw [if_neg h1, if_pos h2]
  · rw [if_neg h1, if_neg h2, if_pos h3]
  · rw [if_neg h1, if_neg h2, if_neg h3]

/-- Witness for C3: Mars at 12° elongation with combustion orb 8.5° and
under-beams orb 15° is UNDER_BEAMS with no exception; Mercury at 12°
elongation in Gemini satisfies the visibility exception and the same band
downgrades to FREE with `traditional_exception = true`. -/
theorem solar_condition_first_match_witness :
    _analyze_enhanced_solar_condition testConfig.orbs .mars marsAt112 sunAt100 0 =
      { planet := .mars, distance_from_sun := 12, condition := .under_beams,
        exact_cazimi := false, traditional_exception := false } ∧
    _analyze_enhanced_solar_condition testConfig.orbs .mercury mercuryAt82 sunAt70 0 =
      { planet := .mercury, distance_from_sun := 12, condition := .free,
        exact_cazimi := false, traditional_exception := true } := by
  constructor
  · have h := solar_condition_first_match testConfig.orbs .mars marsAt112 sunAt100 0
      (by decide) 12
      (by norm_num [calculate_elongation, qmod360, marsAt112, sunAt100, mkPos])
      false
      (by simp [combustion_resistant])
    have h3 := h.2.2.1 (by norm_num [testConfig]) (by norm_num [testConfig])
      (by norm_num [testConfig])
    simpa using h3
  · have h := solar_condition_first_match testConfig.orbs .mercury mercuryAt82 sunAt70 0
      (by decide) 12
      (by norm_num [calculate_elongation, qmod360, mercuryAt82, sunAt70, mkPos])
      true
      (by norm_num [combustion_resistant, _check_enhanced_combustion_exception,
        calculate_elongation, qmod360, mercuryAt82, sunAt70, mkPos])
    have h3 := h.2.2.1 (by norm_num [testConfig]) (by norm_num [testConfig])
      (by norm_num [testConfig])
    simpa using h3

/-! ## C8 — house placement partitions the circle -/

/-- C8: on a valid cusp partition, `_calculate_house_position` returns a
house in 1–12 whose arc contains the longitude; that arc is the only one
containing it (so the house-1 default, reached only when no arc matches,
never fires); and restarting the cusp ordering at any cusp `k` assigns the
longitude the arc starting at the same cusp value. -/
theorem house_position_partition (houses : List ℚ) (lon : ℚ)
    (hv : HouseCuspsValid houses) :
    (1 ≤ _calculate_house_position lon houses ∧
      _calculate_house_position lon houses ≤ 12) ∧
    houseArcContains houses (qmod360 lon) (_calculate_house_position lon houses - 1)
      = true ∧
    (∀ j, j < 12 → (houseArcContains houses (qmod360 lon) j = true ↔
      j = _calculate_house_position lon houses - 1)) ∧
    (∀ k, k < 12 →
      (rotateCusps houses k).getD
        (_calculate_house_position lon (rotateCusps houses k) - 1) 0 =
      houses.getD (_calculate_house_position lon houses - 1) 0) := by
  obtain ⟨i, hi, harc, huniq⟩ := house_unique_arc houses lon hv
  have hfalse : ∀ j, j < i → houseArcContains houses (qmod360 lon) j = false := by
    intro j hj
    cases hpj : houseArcContains houses (qmod360 lon) j
    · rfl
    · exact absurd (huniq j (by omega) hpj) (by omega)
  have hfind : findFirstIdx (houseArcContains houses (qmod360 lon)) 0 12 = some i :=
    findFirstIdx_eq_some _ 12 0 i (by omega) (by omega) harc
      (fun j _ hj2 => hfalse j hj2)
  have hhp : _calculate_house_position lon houses = i + 1 := by
    rw [_calculate_house_position]
    simp only [hfind]
  refine ⟨⟨by omega, by omega⟩, ?_, ?_, ?_⟩
  · rw [hhp]
    simpa using harc
  · intro j hj
    rw [hhp]
    simp only [Nat.add_sub_cancel]
    constructor
    · intro h
      exact huniq j hj h
    · intro h
      rw [h]
      exact harc
  · intro k hk
    set rot := rotateCusps houses k with hrotdef
    set j0 := (i + (12 - k)) % 12 with hj0def
    have hj0lt : j0 < 12 := Nat.mod_lt _ (by omega)
    have hj0k : (j0 + k) % 12 = i := by omega
    have harcrot : houseArcContains rot (qmod360 lon) j0 = true := by
      rw [hrotdef, rotateCusps_arc houses k _ j0 hj0lt, hj0k]
      exact harc
    have huniqrot : ∀ j, j < 12 → houseArcContains rot (qmod360 lon) j = true →
        j = j0 := by
      intro j hj hpj
      rw [hrotdef, rotateCusps_arc houses k _ j hj] at hpj
      have := huniq ((j + k) % 12) (Nat.mod_lt _ (by omega)) hpj
      omega
    have hfalserot : ∀ j, j < j0 → houseArcContains rot (qmod360 lon) j = false := by
      intro j hj
      cases hpj : houseArcContains rot (qmod360 lon) j
      · rfl
      · exact absurd (huniqrot j (by omega) hpj) (by omega)
    have hfindrot : findFirstIdx (houseArcContains rot (qmod360 lon)) 0 12 = some j0 :=
      findFirstIdx_eq_some _ 12 0 j0 (by omega) (by omega) harcrot
        (fun j _ hj2 => hfalserot j hj2)
    have hhprot : _calculate_house_position lon rot = j0 + 1 := by
      rw [_calculate_house_position]
      simp only [hfindrot]
    rw [hhprot, hhp]
    simp only [Nat.add_sub_cancel]
    rw [hrotdef, rotateCusps_getD houses k j0 hj0lt, hj0k]

/-- Witness for C8: the equal-house cusps are a valid partition, longitude
100° falls in house 4 (arc [90°, 120°)), and that arc is reported to
contain it. -/
theorem house_position_partition_witness :
    HouseCuspsValid equalHouses ∧
    _calculate_house_position 100 equalHouses = 4 ∧
    houseArcContains equalHouses (qmod360 100)
      (_calculate_house_position 100 equalHouses - 1) = true := by
  have hv : HouseCuspsValid equalHouses := by
    constructor
    · rfl
    · have hs : ∀ i, i < 12 → cuspOffsets equalHouses i = 30 * (i : ℚ) := by
        intro i hi
        interval_cases i <;> norm_num [cuspOffsets, equalHouses, qmod360]
      intro i j hij hj
      rw [hs i (by omega), hs j hj]
      have hq : (i:ℚ) < (j:ℚ) := by exact_mod_cast hij
      linarith
  have h4 : _calculate_house_position 100 equalHouses = 4 := by
    norm_num [_calculate_house_position, findFirstIdx, houseArcContains,
      equalHouses, qmod360]
  exact ⟨hv, h4, (house_position_partition equalHouses 100 hv).2.1⟩

/-! ## Bounds helpers for confidence values -/

theorem pyInt_nonneg {q : ℚ} (h : 0 ≤ q) : 0 ≤ pyInt q := by
  unfold pyInt
  rw [if_neg (not_lt.mpr h)]
  exact Int.floor_nonneg.mpr h

theorem pyInt_le {q : ℚ} {n : Int} (h : q ≤ (n:ℚ)) : pyInt q ≤ n := by
  unfold pyInt
  split_ifs with hneg
  · rw [Int.floor_neg, neg_neg]
    exact Int.ceil_le.mpr h
  · calc ⌊q⌋ ≤ ⌊(n:ℚ)⌋ := Int.floor_le_floor h
    _ = n := Int.floor_intCast n

theorem pyInt_min100_range {c : Int} (hc : 0 ≤ c) {b : ℚ} (hb : 0 ≤ b) :
    0 ≤ pyInt (min 100 ((c:ℚ) + b)) ∧ pyInt (min 100 ((c:ℚ) + b)) ≤ 100 := by
  constructor
  · apply pyInt_nonneg
    refine le_min (by norm_num) ?_
    have hc' : (0:ℚ) ≤ (c:ℚ) := by exact_mod_cast hc
    linarith
  · apply pyInt_le
    push_cast
    exact min_le_left _ _

/-- Any confidence value produced by `_check_enhanced_perfection` lies in
`[0, 100]` when every configured confidence value does and the exaltation
boost is nonnegative. -/
theorem perfection_confidence_in_range (config : HoraryConfig)
    (sepOrder : SepOrderFn) (chart : HoraryChart) (querent quesited : Planet)
    (boost : ℚ) (hcfg : ConfidenceConfigInRange config.confidence)
    (hb0 : 0 ≤ boost) :
    ∀ pd, _check_enhanced_perfection config sepOrder chart querent quesited boost
        = some pd → 0 ≤ pd.confidence ∧ pd.confidence ≤ 100 := by
  intro pd h
  obtain ⟨_, _, _, _, _, _, hr1, hr1', he1, he1', hdb, hdb', htl, htl', hcl, hcl',
    hro, hro', _, _, _, _, _, _, _, _, _, _⟩ := hcfg
  have afterKey : ∀ (had :
      (match _check_enhanced_translation_of_light config sepOrder chart querent quesited with
       | some (_translator, favorable) =>
         some { ptype := .translation, favorable := favorable,
                confidence := config.confidence.perfection.translation_of_light,
                reception := .no_reception }
       | none =>
         match _check_enhanced_collection_of_light config chart querent quesited with
         | some _collector =>
           some { ptype := .collection, favorable := true,
                  confidence := config.confidence.perfection.collection_of_light,
                  reception := .no_reception }
         | none =>
           match _check_enhanced_mutual_reception chart querent quesited with
           | .mutual_rulership =>
             some { ptype := .reception, favorable := true,
                    confidence := config.confidence.perfection.reception_only,
                    reception := .mutual_rulership }
           | .mutual_exaltation =>
             some { ptype := .reception, favorable := true,
                    confidence := pyInt (min 100
                      ((config.confidence.perfection.reception_only : ℚ) + boost)),
                    reception := .mutual_exaltation }
           | _ => none) = some pd),
      0 ≤ pd.confidence ∧ pd.confidence ≤ 100 := by
    intro had
    rcases ht : _check_enhanced_translation_of_light config sepOrder chart querent
        quesited with _ | tp
    · simp only [ht] at had
      rcases hc : _check_enhanced_collection_of_light config chart querent quesited
          with _ | cp
      · simp only [hc] at had
        rcases hm : _check_enhanced_mutual_reception chart querent quesited
        all_goals simp only [hm, Option.some.injEq, reduceCtorEq] at had
        · rw [← had]; exact ⟨hro, hro'⟩
        · rw [← had]; exact pyInt_min100_range hro hb0
      · simp only [hc, Option.some.injEq] at had
        rw [← had]; exact ⟨hcl, hcl'⟩
    · obtain ⟨tpl, tfav⟩ := tp
      simp only [ht, Option.some.injEq] at had
      rw [← had]; exact ⟨htl, htl'⟩
  rcases hfa : _find_applying_aspect chart querent quesited with _ | a
  · rw [_check_enhanced_perfection] at h
    simp only [hfa] at h
    exact afterKey h
  · rw [_check_enhanced_perfection] at h
    simp only [hfa] at h
    by_cases hp : _enhanced_perfects_in_sign (chart.planets querent)
        (chart.planets quesited) a = true
    · rw [if_pos hp] at h
      rcases hm : _check_enhanced_mutual_reception chart querent quesited
      all_goals simp only [hm, Option.some.injEq] at h
      · rw [← h]; exact ⟨hr1, hr1'⟩
      · rw [← h]; exact pyInt_min100_range he1 hb0
      · rw [← h]; exact ⟨hdb, hdb'⟩
      · rw [← h]; exact ⟨hdb, hdb'⟩
    · rw [if_neg hp] at h
      exact afterKey h

/-- The prohibition scan only ever returns the configured prohibition
confidence. -/
theorem prohibitionLoop_confidence (config : HoraryConfig) (chart : HoraryChart)
    (querent quesited : Planet) :
    ∀ l c, prohibitionLoop config chart querent quesited l = some c →
      c = config.confidence.denial.prohibition := by
  intro l
  induction l with
  | nil => intro c h; simp [prohibitionLoop] at h
  | cons a rest ih =>
    intro c h
    simp only [prohibitionLoop] at h
    split_ifs at h <;>
      first
        | exact ih c h
        | (rcases hsig : _find_applying_aspect chart querent quesited with _ | sa <;>
            simp only [hsig] at h <;>
            first
              | exact ih c h
              | (split_ifs at h <;>
                  first
                    | exact (Option.some_inj.mp h).symm
                    | exact ih c h))

/-- Any confidence value produced by `_check_enhanced_denial_conditions`
lies in `[0, 100]` when the configured denial confidences do. -/
theorem denial_confidence_in_range (config : HoraryConfig) (chart : HoraryChart)
    (querent quesited : Planet) (hcfg : ConfidenceConfigInRange config.confidence) :
    ∀ c, _check_enhanced_denial_conditions config chart querent quesited = some c →
      0 ≤ c ∧ c ≤ 100 := by
  intro c h
  obtain ⟨_, _, _, _, _, _, _, _, _, _, _, _, _, _, _, _, _, _,
    hpr, hpr', hfr, hfr', _, _, _, _, _, _⟩ := hcfg
  rw [_check_enhanced_denial_conditions] at h
  rcases hl : prohibitionLoop config chart querent quesited chart.aspects with _ | pc
  · simp only [hl] at h
    split_ifs at h
    · simp only [Option.some.injEq] at h
      rw [← h]; exact ⟨hfr, hfr'⟩
  · simp only [hl, Option.some.injEq] at h
    have := prohibitionLoop_confidence config chart querent quesited chart.aspects pc hl
    rw [← h, this]
    exact ⟨hpr, hpr'⟩

/-- The solar-adjusted running confidence is nonnegative whenever the
combustion penalty does not exceed the base confidence and the cazimi bonus
is nonnegative. -/
theorem solarAdjustedConfidence_nonneg (config : HoraryConfig) (chart : HoraryChart)
    (ic : Bool) (hb : 0 ≤ config.confidence.base_confidence)
    (hcz : 0 ≤ config.confidence.solar.cazimi_bonus)
    (hgap : config.confidence.solar.combustion_penalty
      ≤ config.confidence.base_confidence) :
    0 ≤ solarAdjustedConfidence config chart ic := by
  simp only [solarAdjustedConfidence]
  split_ifs <;> omega

/-! ## C7 — judge_question never propagates an exception -/

/-- C7: `judge_question` is total over every collaborator behavior — the
`try/except` wrapper maps a `LocationError` raised anywhere in the pipeline
to a `LOCATION_ERROR` result with confidence 0 and the message in the
reasoning list, any other exception to an `ERROR` result with confidence 0
and the message in the reasoning list, and passes a successful pipeline
result through unchanged; in particular a missing geolocator yields the
`LOCATION_ERROR` result for "Geocoding service not available". -/
theorem judge_question_error_handling (config : HoraryConfig) (env : JudgeEnv)
    (args : JudgeArgs) :
    (∀ msg, judgeQuestionPipeline config env args = .error (.locationError msg) →
      judge_question config env args =
        { judgment := "LOCATION_ERROR", confidence := 0,
          reasoning := ["Location error: " ++ msg] }) ∧
    (∀ msg, judgeQuestionPipeline config env args = .error (.otherError msg) →
      judge_question config env args =
        { judgment := "ERROR", confidence := 0,
          reasoning := ["Calculation error: " ++ msg] }) ∧
    (∀ r, judgeQuestionPipeline config env args = .ok r →
      judge_question config env args = r) ∧
    (env.geolocatorAvailable = false →
      judge_question config env args =
        { judgment := "LOCATION_ERROR", confidence := 0,
          reasoning := ["Location error: Geocoding service not available"] }) := by
  refine ⟨?_, ?_, ?_, ?_⟩
  · intro msg h
    simp [judge_question, h]
  · intro msg h
    simp [judge_question, h]
  · intro r h
    simp [judge_question, h]
  · intro h
    have hpipe : judgeQuestionPipeline config env args =
        .error (.locationError "Geocoding service not available") := by
      rw [judgeQuestionPipeline]
      simp [h]
      rfl
    simp [judge_question, hpipe]

/-- Witness for C7: a missing geolocator and a crashing chart calculation
both produce total error results with confidence 0 and the message in the
reasoning list, and a healthy pipeline passes its result through. -/
theorem judge_question_error_handling_witness :
    judge_question testConfig envUnavailable defaultArgs =
      { judgment := "LOCATION_ERROR", confidence := 0,
        reasoning := ["Location error: Geocoding service not available"] } ∧
    judge_question testConfig envChartError defaultArgs =
      { judgment := "ERROR", confidence := 0,
        reasoning := ["Calculation error: boom"] } := by
  constructor
  · exact (judge_question_error_handling testConfig envUnavailable defaultArgs).2.2.2
      (by simp [envUnavailable, envOk])
  · apply (judge_question_error_handling testConfig envChartError defaultArgs).2.1 "boom"
    rw [judgeQuestionPipeline]
    simp [envChartError, envOk, defaultArgs]
    rfl

/-! ## C6 — DST edge cases in datetime parsing -/

/-- C6 (amended): on the `pytz` fallback path (taken only when `zoneinfo`
is unavailable), an ambiguous fall-back local time resolves to the
standard-time occurrence and a non-existent spring-forward local time is
resolved by advancing the naive time one hour before localizing.  On the
default `zoneinfo` path the source attaches the zone with
`datetime.replace` and performs no such handling (see the
counterexample). -/
theorem dst_pytz_resolution (t : Int) :
    (americaNewYork2021.isAmbiguous t = true →
      parse_datetime_with_timezone false americaNewYork2021 t = (t, t + 300)) ∧
    (americaNewYork2021.isNonexistent t = true →
      parse_datetime_with_timezone false americaNewYork2021 t =
        (t + 60, t + 60 + 240)) := by
  constructor
  · intro h
    rw [parse_datetime_with_timezone]
    simp only [Bool.false_eq_true, if_false, h, if_true]
    simp [americaNewYork2021, Prod.ext_iff]
  · intro h
    have hb : 103800 ≤ t ∧ t < 103860 := by
      have hcopy := h
      simp only [americaNewYork2021, Bool.and_eq_true, decide_eq_true_eq] at hcopy
      exact hcopy
    have hnotamb : americaNewYork2021.isAmbiguous t = false := by
      have h1 : ¬ (446460 ≤ t) := by omega
      simp [americaNewYork2021, h1]
    rw [parse_datetime_with_timezone]
    simp only [Bool.false_eq_true, if_false, hnotamb, h, if_true]
    have hoff : americaNewYork2021.offsetFold0 (t + 60) = -240 := by
      simp only [americaNewYork2021]
      rw [if_neg (by omega), if_pos (by omega)]
    simp [hoff, Prod.ext_iff]

/-- Counterexample for C6 as frozen ("in every environment"): in the
`zoneinfo` environment the ambiguous local time 2021-11-07 01:30 (minute
446490 of 2021) maps to UTC 05:30 (minute 446730, daylight-time occurrence
via fold=0), not the claimed standard-time UTC 06:30 (minute 446790); and
the non-existent local time 2021-03-14 02:30 (minute 103830) is not
advanced to 03:30 local (minute 103890) — the naive time is kept. -/
theorem dst_zoneinfo_counterexample :
    parse_datetime_with_timezone true americaNewYork2021 446490 = (446490, 446730) ∧
    (446730 : Int) ≠ 446790 ∧
    (446790 : Int) = 310 * 1440 + 6 * 60 + 30 ∧
    (446730 : Int) = 310 * 1440 + 5 * 60 + 30 ∧
    parse_datetime_with_timezone true americaNewYork2021 103830 = (103830, 104130) ∧
    (103830 : Int) ≠ 103890 ∧
    (103890 : Int) = 72 * 1440 + 3 * 60 + 30 := by
    refine ⟨?_, by norm_num, by norm_num, by norm_num, ?_, by norm_num, by norm_num⟩
    · rw [parse_datetime_with_timezone]
      norm_num [americaNewYork2021]
    · rw [parse_datetime_with_timezone]
      norm_num [americaNewYork2021]

/-- Witness for the amended C6: at the claim's concrete instants on the
`pytz` path, 2021-11-07 01:30 resolves to local 01:30 EST with UTC 06:30,
and 2021-03-14 02:30 resolves to local 03:30 EDT with UTC 07:30. -/
theorem dst_pytz_resolution_witness :
    parse_datetime_with_timezone false americaNewYork2021 446490 = (446490, 446790) ∧
    (446790 : Int) = 310 * 1440 + 6 * 60 + 30 ∧
    parse_datetime_with_timezone false americaNewYork2021 103830 = (103890, 104130) ∧
    (103890 : Int) = 72 * 1440 + 3 * 60 + 30 ∧
    (104130 : Int) = 72 * 1440 + 7 * 60 + 30 := by
  refine ⟨?_, by norm_num, ?_, by norm_num, by norm_num⟩
  · have h := (dst_pytz_resolution 446490).1 (by decide)
    rw [h]
    norm_num
  · have h := (dst_pytz_resolution 103830).2 (by decide)
    rw [h]
    norm_num

/-! ## C1 — confidence bounds of the judgment -/

/-- C1 (amended): with every configured confidence/bonus/penalty value in
its documented `[0, 100]` range and a nonnegative exaltation boost, the
confidence returned by `_apply_enhanced_judgment` lies in `[0, 100]` for
every terminal verdict, provided additionally that the solar combustion
penalty does not exceed the base confidence.  (Without that proviso the
lower bound fails: the engine subtracts the combustion penalty from the
base confidence with no clamp — see the counterexample.) -/
theorem judgment_confidence_in_range (config : HoraryConfig) (sepOrder : SepOrderFn)
    (chart : HoraryChart) (quesited_house : Nat)
    (ir ivm ic is7 : Bool) (boost : ℚ)
    (hcfg : ConfidenceConfigInRange config.confidence)
    (hb0 : 0 ≤ boost)
    (hgap : config.confidence.solar.combustion_penalty
      ≤ config.confidence.base_confidence) :
    0 ≤ (_apply_enhanced_judgment config sepOrder chart quesited_house
          ir ivm ic is7 boost).confidence ∧
    (_apply_enhanced_judgment config sepOrder chart quesited_house
          ir ivm ic is7 boost).confidence ≤ 100 := by
  have hcopy := hcfg
  obtain ⟨hb, hb', hcz, hcz', hcp, hcp', _, _, _, _, _, _, _, _, _, _, _, _,
    _, _, _, _, hlf, hlf', hlu, hlu', hln, hln'⟩ := hcopy
  have hsac0 : 0 ≤ solarAdjustedConfidence config chart ic :=
    solarAdjustedConfidence_nonneg config chart ic hb hcz hgap
  rw [_apply_enhanced_judgment]
  split
  · norm_num
  · split
    · norm_num
    · rename_i qp qsp _hsig
      split
      · rename_i pd hpd
        have hpdr := perfection_confidence_in_range config sepOrder chart qp qsp
          boost hcfg hb0 pd hpd
        exact ⟨le_min hsac0 hpdr.1, le_trans (min_le_right _ _) hpdr.2⟩
      · split
        · rename_i dc hdc
          have hdcr := denial_confidence_in_range config chart qp qsp hcfg dc hdc
          exact ⟨le_min hsac0 hdcr.1, le_trans (min_le_right _ _) hdcr.2⟩
        · dsimp only
          split
          · exact ⟨le_min hsac0 hlf, le_trans (min_le_right _ _) hlf'⟩
          · split
            · exact ⟨le_min hsac0 hlu, le_trans (min_le_right _ _) hlu'⟩
            · exact ⟨le_min hsac0 hln, le_trans (min_le_right _ _) hln'⟩

set_option maxHeartbeats 3200000 in
/-- Counterexample for C1 as frozen: with every configured
confidence/bonus/penalty inside `[0, 100]` (base 50, combustion penalty 80)
and a combusted Mercury, the judgment on `chartC1` terminates in the NO
verdict (void Moon) with confidence −30: the engine subtracts the
combustion penalty from the base confidence without any clamp to
`[0, 100]`. -/
theorem judgment_confidence_counterexample :
    ConfidenceConfigInRange counterConfig.confidence ∧
    (0:ℚ) ≤ 15 ∧ (15:ℚ) ≤ 100 ∧
    _apply_enhanced_judgment counterConfig sepNever chartC1 7 false false false false 15 =
      { result := "NO", confidence := -30 } ∧
    (_apply_enhanced_judgment counterConfig sepNever chartC1 7
      false false false false 15).confidence < 0 := by
  have hrange : ConfidenceConfigInRange counterConfig.confidence := by
    norm_num [ConfidenceConfigInRange, counterConfig, testConfig]
  have hsig : _identify_significators chartC1 7 = some (.mars, .venus) := by
    simp [_identify_significators, chartC1, baseChart, equalHouseRulers]
  have hrad : _check_enhanced_radicality counterConfig chartC1 false = true := by
    norm_num [_check_enhanced_radicality, qmod30, chartC1, baseChart, counterConfig,
      testConfig]
  have hfindall : ∀ p q : Planet, _find_applying_aspect chartC1 p q = none := by
    intro p q
    simp [_find_applying_aspect, chartC1, baseChart]
  have htrans : _check_enhanced_translation_of_light counterConfig sepNever chartC1
      .mars .venus = none := by
    simp [_check_enhanced_translation_of_light, counterConfig, testConfig]
  have hcoll : _check_enhanced_collection_of_light counterConfig chartC1
      .mars .venus = none := by
    simp [_check_enhanced_collection_of_light, collectionLoop, planetList, hfindall]
  have hrecep : _check_enhanced_mutual_reception chartC1 .mars .venus =
      .no_reception := by
    simp [_check_enhanced_mutual_reception, chartC1, baseChart, c1Planets, mkPos,
      Sign.ruler, exaltations]
  have hperfnone : _check_enhanced_perfection counterConfig sepNever chartC1
      .mars .venus 15 = none := by
    rw [_check_enhanced_perfection]
    simp [hfindall, htrans, hcoll, hrecep]
  have hden : _check_enhanced_denial_conditions counterConfig chartC1
      .mars .venus = none := by
    simp [_check_enhanced_denial_conditions, prohibitionLoop, chartC1, baseChart,
      counterConfig, testConfig]
  have hvoid : _void_by_sign_method counterConfig chartC1 =
      { void := true, exception := false, degrees_left_in_sign := some 2 } := by
    norm_num [_void_by_sign_method, voidBySignFutureAspects,
      _calculate_aspect_positions, chartC1, baseChart, c1Planets, mkPos,
      counterConfig, testConfig, planetList, aspectList, Aspect.degrees,
      Sign.start_degree, qmod360, qmod30]
    decide
  have hmt : _check_enhanced_moon_testimony counterConfig chartC1 .mars .venus
      false = { favorable := false, unfavorable := true, void_of_course := true } := by
    have hdisp : _is_moon_void_of_course_enhanced counterConfig chartC1 =
        _void_by_sign_method counterConfig chartC1 := by
      rw [_is_moon_void_of_course_enhanced]
      have : counterConfig.moon.void_rule = VoidRule.by_sign := rfl
      rw [this]
    rw [_check_enhanced_moon_testimony]
    simp [hdisp, hvoid]
  have hsac : solarAdjustedConfidence counterConfig chartC1 false = -30 := by
    simp [solarAdjustedConfidence, _analyze_enhanced_solar_factors, chartC1, baseChart,
      mercuryCombustSolar, freeSolar, planetList, counterConfig, testConfig]
  have hmin : min (-30 : Int) counterConfig.confidence.lunar_confidence_caps.unfavorable
      = -30 := by
    norm_num [counterConfig, testConfig]
  have hj : _apply_enhanced_judgment counterConfig sepNever chartC1 7
      false false false false 15 = { result := "NO", confidence := -30 } := by
    rw [_apply_enhanced_judgment]
    simp [hrad, hsig, hperfnone, hden, hmt, hsac, hmin]
  refine ⟨hrange, by norm_num, by norm_num, hj, ?_⟩
  rw [hj]
  norm_num

/-- Witness for the amended C1: the test configuration satisfies every
range hypothesis and the baseline chart's judgment confidence is inside
`[0, 100]`. -/
theorem judgment_confidence_in_range_witness :
    0 ≤ (_apply_enhanced_judgment testConfig sepNever baseChart 7
          false false false false 15).confidence ∧
    (_apply_enhanced_judgment testConfig sepNever baseChart 7
          false false false false 15).confidence ≤ 100 := by
  exact judgment_confidence_in_range testConfig sepNever baseChart 7
    false false false false 15
    (by norm_num [ConfidenceConfigInRange, testConfig])
    (by norm_num)
    (by norm_num [testConfig])

/-! ## C2 — reception overrides aspect-type favorability -/

/-- C2 (amended): when the significators have an applying direct aspect
that perfects before either leaves its sign and they are in mutual
reception by rulership, the perfection check returns a favorable direct
perfection carrying exactly the configured
`direct_with_mutual_rulership` confidence — regardless of the aspect type —
and (on a radical chart with valid significators) the judgment result is
YES with that confidence capped by the solar-adjusted running confidence;
more generally mutual rulership, mutual exaltation, and mixed reception all
force the direct perfection favorable. -/
theorem direct_perfection_with_reception
    (config : HoraryConfig) (sepOrder : SepOrderFn) (chart : HoraryChart)
    (quesited_house : Nat) (querent quesited : Planet) (a : AspectInfo)
    (ivm ic is7 : Bool) (boost : ℚ)
    (hsig : _identify_significators chart quesited_house = some (querent, quesited))
    (hrad : _check_enhanced_radicality config chart is7 = true)
    (ha : _find_applying_aspect chart querent quesited = some a)
    (hperf : _enhanced_perfects_in_sign (chart.planets querent)
      (chart.planets quesited) a = true) :
    (_check_enhanced_mutual_reception chart querent quesited = .mutual_rulership →
      _check_enhanced_perfection config sepOrder chart querent quesited boost =
        some { ptype := .direct, favorable := true,
               confidence := config.confidence.perfection.direct_with_mutual_rulership,
               reception := .mutual_rulership } ∧
      _apply_enhanced_judgment config sepOrder chart quesited_house false ivm ic is7 boost =
        { result := "YES",
          confidence := min (solarAdjustedConfidence config chart ic)
            config.confidence.perfection.direct_with_mutual_rulership }) ∧
    (∀ r, _check_enhanced_mutual_reception chart querent quesited = r →
      r ≠ .no_reception →
      ∃ pd, _check_enhanced_perfection config sepOrder chart querent quesited boost
          = some pd ∧ pd.ptype = .direct ∧ pd.favorable = true) := by
  constructor
  · intro hrecep
    have hperfection : _check_enhanced_perfection config sepOrder chart querent
        quesited boost =
        some { ptype := .direct, favorable := true,
               confidence := config.confidence.perfection.direct_with_mutual_rulership,
               reception := .mutual_rulership } := by
      simp [_check_enhanced_perfection, ha, hperf, hrecep]
    refine ⟨hperfection, ?_⟩
    simp [_apply_enhanced_judgment, hrad, hsig, hperfection]
  · intro r hr hrne
    cases r with
    | mutual_rulership =>
      have hp : _check_enhanced_perfection config sepOrder chart querent quesited boost =
          some { ptype := .direct, favorable := true,
                 confidence := config.confidence.perfection.direct_with_mutual_rulership,
                 reception := .mutual_rulership } := by
        simp [_check_enhanced_perfection, ha, hperf, hr]
      exact ⟨_, hp, rfl, rfl⟩
    | mutual_exaltation =>
      have hp : _check_enhanced_perfection config sepOrder chart querent quesited boost =
          some { ptype := .direct, favorable := true,
                 confidence := pyInt (min 100
                   ((config.confidence.perfection.direct_with_mutual_exaltation : ℚ)
                     + boost)),
                 reception := .mutual_exaltation } := by
        simp [_check_enhanced_perfection, ha, hperf, hr]
      exact ⟨_, hp, rfl, rfl⟩
    | mixed_reception =>
      have hp : _check_enhanced_perfection config sepOrder chart querent quesited boost =
          some { ptype := .direct,
                 favorable := _is_aspect_favorable a.aspect .mixed_reception,
                 confidence := config.confidence.perfection.direct_basic,
                 reception := .mixed_reception } := by
        simp [_check_enhanced_perfection, ha, hperf, hr]
      exact ⟨_, hp, rfl, by simp [_is_aspect_favorable]⟩
    | no_reception => exact absurd rfl hrne

/-- Counterexample for C2 as frozen: on `chartC2` every hypothesis of the
claim holds (radical chart, valid Mars/Venus significators, applying square
perfecting in sign, mutual reception by rulership) and the verdict is YES,
but the result's confidence is the solar-capped 90, not the configured
`direct_with_mutual_rulership` value 95 — a combusted Mercury lowered the
running confidence and `_apply_enhanced_judgment` takes the minimum. -/
theorem direct_rulership_confidence_counterexample :
    _check_enhanced_mutual_reception chartC2 .mars .venus = .mutual_rulership ∧
    _find_applying_aspect chartC2 .mars .venus = some c2Aspect ∧
    c2Aspect.aspect = Aspect.square ∧
    _enhanced_perfects_in_sign (chartC2.planets .mars) (chartC2.planets .venus)
      c2Aspect = true ∧
    testConfig.confidence.perfection.direct_with_mutual_rulership = 95 ∧
    _apply_enhanced_judgment testConfig sepNever chartC2 7 false false false false 15 =
      { result := "YES", confidence := 90 } ∧
    (_apply_enhanced_judgment testConfig sepNever chartC2 7 false false false false 15).confidence
      ≠ testConfig.confidence.perfection.direct_with_mutual_rulership := by
  have hsig : _identify_significators chartC2 7 = some (.mars, .venus) := by
    simp [_identify_significators, chartC2, baseChart, equalHouseRulers]
  have hrad : _check_enhanced_radicality testConfig chartC2 false = true := by
    norm_num [_check_enhanced_radicality, qmod30, chartC2, baseChart, testConfig]
  have hfind : _find_applying_aspect chartC2 .mars .venus = some c2Aspect := by
    simp [_find_applying_aspect, chartC2, baseChart, c2Aspect]
  have hperf : _enhanced_perfects_in_sign (chartC2.planets .mars)
      (chartC2.planets .venus) c2Aspect = true := by
    norm_num [_enhanced_perfects_in_sign, chartC2, baseChart, c2Planets, mkPos,
      days_to_sign_exit, qmod30, pyTruthy, c2Aspect, abs_of_pos]
  have hrecep : _check_enhanced_mutual_reception chartC2 .mars .venus =
      .mutual_rulership := by
    simp [_check_enhanced_mutual_reception, chartC2, baseChart, c2Planets, mkPos,
      Sign.ruler]
  have hperfection : _check_enhanced_perfection testConfig sepNever chartC2
      .mars .venus 15 =
      some { ptype := .direct, favorable := true, confidence := 95,
             reception := .mutual_rulership } := by
    simp [_check_enhanced_perfection, hfind, hperf, hrecep, testConfig]
  have hsac : solarAdjustedConfidence testConfig chartC2 false = 90 := by
    simp [solarAdjustedConfidence, _analyze_enhanced_solar_factors, chartC2,
      baseChart, mercuryCombustSolar, freeSolar, planetList, testConfig]
  have hjudg : _apply_enhanced_judgment testConfig sepNever chartC2 7
      false false false false 15 = { result := "YES", confidence := 90 } := by
    simp [_apply_enhanced_judgment, hrad, hsig, hperfection, hsac]
  refine ⟨hrecep, hfind, rfl, hperf, rfl, hjudg, ?_⟩
  rw [hjudg]
  norm_num [testConfig]

/-- Witness for the amended C2: the same chart with no solar afflictions
gives judgment YES at exactly the configured confidence 95, via an applying
square — an unfavorable aspect type overridden by mutual rulership. -/
theorem direct_perfection_with_reception_witness :
    _check_enhanced_perfection testConfig sepNever chartC2clean .mars .venus 15 =
      some { ptype := .direct, favorable := true, confidence := 95,
             reception := .mutual_rulership } ∧
    _apply_enhanced_judgment testConfig sepNever chartC2clean 7 false false false false 15 =
      { result := "YES", confidence := 95 } := by
  have hsig : _identify_significators chartC2clean 7 = some (.mars, .venus) := by
    simp [_identify_significators, chartC2clean, chartC2, baseChart, equalHouseRulers]
  have hrad : _check_enhanced_radicality testConfig chartC2clean false = true := by
    norm_num [_check_enhanced_radicality, qmod30, chartC2clean, chartC2, baseChart,
      testConfig]
  have hfind : _find_applying_aspect chartC2clean .mars .venus = some c2Aspect := by
    simp [_find_applying_aspect, chartC2clean, chartC2, baseChart, c2Aspect]
  have hperf : _enhanced_perfects_in_sign (chartC2clean.planets .mars)
      (chartC2clean.planets .venus) c2Aspect = true := by
    norm_num [_enhanced_perfects_in_sign, chartC2clean, chartC2, baseChart, c2Planets,
      mkPos, days_to_sign_exit, qmod30, pyTruthy, c2Aspect, abs_of_pos]
  have hrecep : _check_enhanced_mutual_reception chartC2clean .mars .venus =
      .mutual_rulership := by
    simp [_check_enhanced_mutual_reception, chartC2clean, chartC2, baseChart,
      c2Planets, mkPos, Sign.ruler]
  have h := (direct_perfection_with_reception testConfig sepNever chartC2clean 7
    .mars .venus c2Aspect false false false 15 hsig hrad hfind hperf).1 hrecep
  have hsac : solarAdjustedConfidence testConfig chartC2clean false = 100 := by
    simp [solarAdjustedConfidence, _analyze_enhanced_solar_factors, chartC2clean,
      chartC2, baseChart, freeSolar, planetList, testConfig]
  constructor
  · have h1 := h.1
    simpa [testConfig] using h1
  · have h2 := h.2
    rw [hsac] at h2
    simpa [testConfig] using h2

/-! ## C9 — a stationary Moon is never void of course -/

/-- C9: whenever the Moon's absolute speed is below the configured
stationary-speed threshold, the `by_sign` void-of-course method returns
`void = false` (with no exception flag), regardless of any future aspects,
and the `lilly` method — which delegates its computation to `by_sign` —
likewise reports `void = false`. -/
theorem stationary_moon_never_void (config : HoraryConfig) (chart : HoraryChart)
    (h : |(chart.planets .moon).speed| < config.timing.stationary_speed_threshold) :
    (_void_by_sign_method config chart).void = false ∧
    (_void_by_sign_method config chart).exception = false ∧
    (_void_lilly_method config chart).void = false := by
  unfold _void_lilly_method _void_by_sign_method
  simp [if_pos h]

/-- Witness for C9: the baseline chart has a stationary Moon (speed 0,
threshold 0.1) and is indeed reported not void. -/
theorem stationary_moon_never_void_witness :
    (_void_by_sign_method testConfig baseChart).void = false ∧
    (_void_lilly_method testConfig baseChart).void = false := by
  have h : |(baseChart.planets Planet.moon).speed|
      < testConfig.timing.stationary_speed_threshold := by
    norm_num [baseChart, mkPos, testConfig]
  exact ⟨(stationary_moon_never_void testConfig baseChart h).1,
         (stationary_moon_never_void testConfig baseChart h).2.2⟩

/-! ## C5 — the Lilly void method delegates to `by_sign` -/

/-- C5: the `lilly` void-of-course method returns exactly the `by_sign`
result (void flag, future-aspect computation, degrees left in sign) with
only the `exception` field replaced; the replacement is true iff the Moon's
sign is Cancer, Taurus, Sagittarius, or Pisces, and the void flag is not
flipped by the exception. -/
theorem lilly_delegates_to_by_sign (config : HoraryConfig) (chart : HoraryChart) :
    _void_lilly_method config chart =
      { _void_by_sign_method config chart with
        exception := decide ((chart.planets .moon).sign ∈ lillyExceptionSigns) } ∧
    (_void_lilly_method config chart).void = (_void_by_sign_method config chart).void ∧
    (_void_lilly_method config chart).degrees_left_in_sign
      = (_void_by_sign_method config chart).degrees_left_in_sign ∧
    ((_void_lilly_method config chart).exception = true ↔
      (chart.planets .moon).sign ∈ lillyExceptionSigns) := by
  refine ⟨rfl, rfl, rfl, ?_⟩
  show decide _ = true ↔ _
  simp

/-! ## C10 — Moon phase bonus only reaches the waxing/full branches -/

/-- C10: for chart longitudes in `[0, 360)` the Moon-phase elongation is
normalized to the shorter arc in `[0, 180]`, so `_moon_phase_bonus` always
returns one of the `new_moon`, `waxing_crescent`, `first_quarter`,
`waxing_gibbous`, or `full_moon` configuration values; the
`waning_gibbous`, `last_quarter`, and `waning_crescent` branches (elongation
in `[210, 360)`) are unreachable. -/
theorem moon_phase_bonus_range (config : HoraryConfig) (chart : HoraryChart)
    (hm0 : 0 ≤ (chart.planets .moon).longitude)
    (hm1 : (chart.planets .moon).longitude < 360)
    (hs0 : 0 ≤ (chart.planets .sun).longitude)
    (hs1 : (chart.planets .sun).longitude < 360) :
    (0 ≤ moonPhaseElongation chart ∧ moonPhaseElongation chart ≤ 180) ∧
    (_moon_phase_bonus config chart = config.moon.phase_bonus.new_moon ∨
     _moon_phase_bonus config chart = config.moon.phase_bonus.waxing_crescent ∨
     _moon_phase_bonus config chart = config.moon.phase_bonus.first_quarter ∨
     _moon_phase_bonus config chart = config.moon.phase_bonus.waxing_gibbous ∨
     _moon_phase_bonus config chart = config.moon.phase_bonus.full_moon) := by
  have hrange : 0 ≤ moonPhaseElongation chart ∧ moonPhaseElongation chart ≤ 180 := by
    have habs : |(chart.planets .moon).longitude - (chart.planets .sun).longitude| < 360 := by
      rw [abs_sub_lt_iff]; constructor <;> linarith
    have habs0 : 0 ≤ |(chart.planets .moon).longitude - (chart.planets .sun).longitude| :=
      abs_nonneg _
    simp only [moonPhaseElongation]
    split_ifs with hgt
    · constructor <;> linarith
    · constructor <;> linarith
  refine ⟨hrange, ?_⟩
  obtain ⟨h0, h180⟩ := hrange
  simp only [_moon_phase_bonus]
  by_cases h1 : moonPhaseElongation chart < 30
  · left
    simp [h0, h1]
  · by_cases h2 : moonPhaseElongation chart < 60
    · right; left
      simp [h0, h1, h2, not_lt.mp h1]
    · by_cases h3 : moonPhaseElongation chart < 120
      · right; right; left
        simp [h0, h1, h2, h3, not_lt.mp h1, not_lt.mp h2]
      · by_cases h4 : moonPhaseElongation chart < 150
        · right; right; right; left
          simp [h0, h1, h2, h3, h4, not_lt.mp h1, not_lt.mp h2, not_lt.mp h3]
        · right; right; right; right
          have h5 : moonPhaseElongation chart < 210 := by linarith
          simp [h0, h1, h2, h3, h4, h5, not_lt.mp h1, not_lt.mp h2, not_lt.mp h3,
            not_lt.mp h4]

/-- Witness for C10: the baseline chart (Moon and Sun both at 15°). -/
theorem moon_phase_bonus_range_witness :
    moonPhaseElongation baseChart ≤ 180 ∧
    (_moon_phase_bonus testConfig baseChart = testConfig.moon.phase_bonus.new_moon ∨
     _moon_phase_bonus testConfig baseChart = testConfig.moon.phase_bonus.waxing_crescent ∨
     _moon_phase_bonus testConfig baseChart = testConfig.moon.phase_bonus.first_quarter ∨
     _moon_phase_bonus testConfig baseChart = testConfig.moon.phase_bonus.waxing_gibbous ∨
     _moon_phase_bonus testConfig baseChart = testConfig.moon.phase_bonus.full_moon) := by
  have h := moon_phase_bonus_range testConfig baseChart
    (by norm_num [baseChart, mkPos]) (by norm_num [baseChart, mkPos])
    (by norm_num [baseChart, mkPos]) (by norm_num [baseChart, mkPos])
  exact ⟨h.1.2, h.2⟩

end Horary
